import Mathlib

/-!
Verification development for the PyDDA streamline plotting layer
(`pydda/vis/streamline_plot.py`) and the Hurricane Florence example script.

The module is embedded shallowly: each of the four plotting procedures is a
pure Lean function from its inputs (a list of grids plus keyword arguments) to
a trace of the calls it issues to the plotting library, together with an
`Except`-style exception outcome.  Array data lives in `RVal`
(exact rationals, a NaN marker, and symbolic values for the operations whose
real-number results are irrational, such as `math.radians` and
`np.ma.sqrt(u**2 + v**2)`); 3-D arrays are functions from indices with an
explicit numpy masked-array flag.  Index-bounds checking and purely stylistic
keyword arguments (cmap, alpha, arrowsize, linewidth, the axis handle) are not
modelled; `squeeze()` is the identity because field arrays are modelled
directly in their squeezed 3-D shape.
-/

/-- Scalar values of the numpy arrays handled by the plotting layer.
`fin` is an exact (rational-valued) float, `nan` is numpy NaN.  The remaining
constructors are symbolic forms for real-valued operations whose exact result
is irrational: `rad q` is `math.radians q`, `smag a b` is
`np.ma.sqrt(a**2 + b**2)` on non-NaN inputs, `divk v c` is `v / c` applied to
an already-symbolic value, and `bcaV` is a cell of the beam-crossing-angle
field produced by the (out-of-scope) retrieval module. -/
inductive RVal where
  | fin : ℚ → RVal
  | nan : RVal
  | rad : ℚ → RVal
  | smag : RVal → RVal → RVal
  | divk : RVal → ℚ → RVal
  | bcaV : Nat → Nat → Nat → Nat → RVal
deriving DecidableEq, Repr, Inhabited

/-- Python exceptions that the embedded code can raise. -/
inductive PyErr where
  | valueError (msg : String)
  | keyError (key : String)
  | indexError
  | typeError (msg : String)
  | nameError (n : String)
  | moduleNotFound (msg : String)
deriving DecidableEq, Repr

/-- An attribute value in the `attrs` dictionary of a field. -/
inductive Attr where
  | str : String → Attr
  | num : ℚ → Attr
deriving DecidableEq, Repr

/-- Division by 1000 (`/ 1e3`), the unit conversion from metres to
kilometres. NaN propagates; symbolic values stay symbolic via `divk`. -/
def rdiv1000 : RVal → RVal
  | .fin q => .fin (q / 1000)
  | .nan => .nan
  | v => .divk v 1000

/-- `np.ma.sqrt(a ** 2 + b ** 2)`: NaN operands propagate, otherwise the
result is the symbolic magnitude. -/
def rmag : RVal → RVal → RVal
  | .nan, _ => .nan
  | _, .nan => .nan
  | a, b => .smag a b

/-- numpy minimum of two scalars (NaN-contaminating; on symbolic operands the
left operand is kept; only `fin`/`nan` operands occur in real grids). -/
def rmin : RVal → RVal → RVal
  | .fin a, .fin b => .fin (min a b)
  | .nan, _ => .nan
  | _, .nan => .nan
  | a, _ => a

/-- numpy maximum of two scalars, same conventions as `rmin`. -/
def rmax : RVal → RVal → RVal
  | .fin a, .fin b => .fin (max a b)
  | .nan, _ => .nan
  | _, .nan => .nan
  | a, _ => a

/-- Comparison `v < c` against a float constant; numpy comparisons with NaN
(and our symbolic values) yield False. -/
def rltQ (v : RVal) (c : ℚ) : Bool :=
  match v with
  | .fin q => decide (q < c)
  | _ => false

/-- Comparison `v > 0`, used for the north/south and east/west title choices. -/
def rgt0 (v : RVal) : Bool :=
  match v with
  | .fin q => decide (0 < q)
  | _ => false

/-- Negation, used only to format the title of the xz/yz sections; division by
-1 is used for the symbolic fallback (numerically identical to negation). -/
def rneg : RVal → RVal
  | .fin q => .fin (-q)
  | .nan => .nan
  | v => .divk v (-1)

/-- Display rendering of a scalar (`str(x)` in the titles); only the
displayed text depends on it. -/
def rstr : RVal → String
  | .fin q => toString q
  | .nan => "nan"
  | _ => "value"

/-- A numpy array of the 3-D gridded shape `(nz, ny, nx)` together with its
masked-array status: `isMa` records whether the object is an
`np.ma.MaskedArray`, and `mask` is only meaningful when it is. -/
structure NpArr where
  nz : Nat
  ny : Nat
  nx : Nat
  dat : Nat → Nat → Nat → RVal
  mask : Nat → Nat → Nat → Bool
  isMa : Bool
deriving Inhabited

/-- 2-D array data handed to a plotting call. -/
abbrev D2 := Nat → Nat → RVal

/-- 2-D mask handed to a plotting call. -/
abbrev M2 := Nat → Nat → Bool

/-- The all-false mask of a plain (unmasked) 2-D array. -/
def mfalse : M2 := fun _ _ => false

/-- Slice `a[l, :, :]`. -/
def NpArr.sl0 (a : NpArr) (l : Nat) : D2 := fun i j => a.dat l i j

/-- Mask of the slice `a[l, :, :]` (empty when the array is not masked). -/
def NpArr.sm0 (a : NpArr) (l : Nat) : M2 := fun i j => a.isMa && a.mask l i j

/-- Slice `a[:, l, :]`. -/
def NpArr.sl1 (a : NpArr) (l : Nat) : D2 := fun i j => a.dat i l j

/-- Mask of the slice `a[:, l, :]`. -/
def NpArr.sm1 (a : NpArr) (l : Nat) : M2 := fun i j => a.isMa && a.mask i l j

/-- Slice `a[:, :, l]`. -/
def NpArr.sl2 (a : NpArr) (l : Nat) : D2 := fun i j => a.dat i j l

/-- Mask of the slice `a[:, :, l]`. -/
def NpArr.sm2 (a : NpArr) (l : Nat) : M2 := fun i j => a.isMa && a.mask i j l

/-- The guard-and-fill idiom
`if isinstance(x, np.ma.MaskedArray): x = x.filled(np.nan)`: a masked array is
replaced by a fresh plain array holding NaN at masked cells and the original
value elsewhere; a plain array is passed through unchanged. -/
def fillIfMasked (a : NpArr) : NpArr :=
  if a.isMa then
    { a with
      dat := fun i j k => if a.mask i j k then .nan else a.dat i j k,
      mask := fun _ _ _ => false,
      isMa := false }
  else a

/-- Elementwise `/ 1e3` on a 3-D array (mask and masked-status unchanged). -/
def NpArr.div1000 (a : NpArr) : NpArr :=
  { a with dat := fun i j k => rdiv1000 (a.dat i j k) }

/-- All index triples of a 3-D array, row-major. -/
def idxList (a : NpArr) : List (Nat × Nat × Nat) :=
  (List.range a.nz).flatMap fun i =>
    (List.range a.ny).flatMap fun j =>
      (List.range a.nx).map fun k => (i, j, k)

/-- The values of an array that its mask does not hide (all values for a
plain array). -/
def NpArr.unmaskedVals (a : NpArr) : List RVal :=
  (idxList a).filterMap fun x =>
    if a.isMa && a.mask x.1 x.2.1 x.2.2 then none else some (a.dat x.1 x.2.1 x.2.2)

/-- `arr.min()`: minimum over the unmasked entries (NaN for an empty or
fully-masked array, matching the numpy masked constant only coarsely; the value
is used only as a display bound). -/
def NpArr.aminV (a : NpArr) : RVal :=
  match a.unmaskedVals with
  | [] => .nan
  | v :: vs => vs.foldl rmin v

/-- `arr.max()`, analogous to `NpArr.aminV`. -/
def NpArr.amaxV (a : NpArr) : RVal :=
  match a.unmaskedVals with
  | [] => .nan
  | v :: vs => vs.foldl rmax v

/-- Minimum of a 2-D array of the given shape. -/
def amin2 (ny nx : Nat) (d : D2) : RVal :=
  match (List.range ny).flatMap (fun i => (List.range nx).map fun j => d i j) with
  | [] => .nan
  | v :: vs => vs.foldl rmin v

/-- Maximum of a 2-D array of the given shape. -/
def amax2 (ny nx : Nat) (d : D2) : RVal :=
  match (List.range ny).flatMap (fun i => (List.range nx).map fun j => d i j) with
  | [] => .nan
  | v :: vs => vs.foldl rmax v

/-- Minimum of a nonempty float list (`np.min` of a contour-level argument). -/
def qMin (q : ℚ) (qs : List ℚ) : ℚ := qs.foldl min q

/-- Maximum of a nonempty float list (`np.max` of a contour-level argument). -/
def qMax (q : ℚ) (qs : List ℚ) : ℚ := qs.foldl max q

/-- One field of a grid: its (squeezed) 3-D values and its `attrs` dict. -/
structure DataArray where
  values : NpArr
  attrs : String → Option Attr
deriving Inhabited

/-- A Py-ART grid as the plotting layer consumes it: a dictionary of fields
(data variables such as the winds, the background field and the point
coordinate fields), the `point_latitude`/`point_longitude` data, the grid
shape, and an identity used to model the out-of-scope `retrieval.get_bca`. -/
structure Grid where
  gid : Nat
  nz : Nat
  ny : Nat
  nx : Nat
  fields : String → Option DataArray
  pointLatitude : Nat → Nat → Nat → RVal
  pointLongitude : Nat → Nat → Nat → RVal
deriving Inhabited

/-- Python list indexing `l[i]` with negative indices counting from the end;
`none` is an `IndexError`. -/
def pyIdx (l : List Grid) (i : Int) : Option Grid :=
  if 0 ≤ (if i < 0 then (l.length : Int) + i else i) then
    l.get? (if i < 0 then (l.length : Int) + i else i).toNat
  else none

/-- Modelled from the spec: the dual-Doppler wind-retrieval module is absent
from the excerpt (only the plotting front-end is in scope); its `get_bca`
derives the between-beam crossing angle field of a pair of radar grids.  It is
modelled as an abstract 2-D field determined by the identities of the two
grids, which the plotting layer passes through to a contour call unchanged. -/
def retrieval.get_bca (g1 g2 : Grid) : D2 :=
  fun i j => RVal.bcaV g1.gid g2.gid i j

/-- Call sites of the plotting-library calls in the four procedures
(h prefix: plot_horiz_xsection_streamlines, m: the map variant,
xz and yz: the vertical sections). -/
inductive CSite where
  | hMesh | hStream | hU | hV | hW | hWind | hLobes
  | mMesh | mStream | mU | mV | mW | mWind | mLobes
  | xzMesh | xzStream | xzU | xzV | xzW | xzWind
  | yzMesh | yzStream | yzU | yzV | yzW | yzWind
deriving DecidableEq, Repr

/-- One observable call into matplotlib/cartopy, or a caught exception and
the warning its handler issues. -/
inductive Event where
  | pcolormesh (src : CSite) (x y c : D2) (cm : M2) (vmin vmax : RVal)
  | streamplot (src : CSite) (x y su sv : D2)
  | contour (src : CSite) (x y c : D2) (cm : M2) (levels : Option (List RVal))
  | contourf (src : CSite) (x y c : D2) (cm : M2) (levels : Option (List RVal))
  | clabel
  | colorbar (label : String)
  | setClim (lo hi : RVal)
  | caught (site : CSite) (err : PyErr)
  | warnRuntime (msg : String)
  | setXlabel (s : String)
  | setYlabel (s : String)
  | setTitle (s : String)
  | setXlim (lo hi : RVal)
  | setYlim (lo hi : RVal)
  | coastlines
  | gridlines
  | setExtent (x0 x1 y0 y1 : RVal)
  | setXticks (t : List RVal)
  | setYticks (t : List RVal)

/-- The outcome of a code region: the library calls it issued, and either
normal completion or the Python exception it raised. -/
abbrev Seg := List Event × Except PyErr Unit

/-- Sequential composition of two code regions: an exception in the first
region skips the second. -/
def seq (a b : Seg) : Seg :=
  match a with
  | (evs, Except.error e) => (evs, Except.error e)
  | (evs, Except.ok _) => (evs ++ b.1, b.2)

/-- A region of straight-line calls. -/
def okSeg (evs : List Event) : Seg := (evs, Except.ok ())

/-- A region that raises after issuing the given calls. -/
def errSeg (evs : List Event) (e : PyErr) : Seg := (evs, Except.error e)

/-- Sequential composition of a list of regions. -/
def seqAll (l : List Seg) : Seg := l.foldr seq (okSeg [])

/-- The message of the ValueError that cartopy raises for an empty contour
set. -/
def blankContourMsg : String := "blank contour"

/-- Warning text of the u/v contour handlers in the map variant. -/
def blankWarnA : String :=
  "Cartopy does not support blank contour plots, contour color map not drawn!"

/-- Warning text of the w/wind contour handlers in the map variant. -/
def blankWarnB : String :=
  "Cartopy does not support color maps on blank contour plots, contour color map not drawn!"

/-- Message of the ValueError raised by `np.min`/`np.max` of an empty list. -/
def zeroSizeMsg : String := "zero-size array to reduction operation"

/-- Message of the ValueError raised by `np.ma.stack([])`. -/
def stackEmptyMsg : String := "need at least one array to stack"

/-- `try: body ... except ValueError: warnings.warn(wmsg, RuntimeWarning)`:
a ValueError raised in the body is recorded as caught at the given site, the
handler only issues the RuntimeWarning and execution continues; any other
exception propagates. -/
def tryVE (site : CSite) (wmsg : String) (body : Seg) : Seg :=
  match body with
  | (evs, Except.error (PyErr.valueError m)) =>
    (evs ++ [Event.caught site (PyErr.valueError m), Event.warnRuntime wmsg], Except.ok ())
  | b => b

/-- Whether a 2-D slice of the given shape draws as a blank contour: every
cell is masked out or NaN (cartopy raises a ValueError on such input). -/
def blank2 (ny nx : Nat) (d : D2) (m : M2) : Bool :=
  (List.range ny).all fun i => (List.range nx).all fun j => m i j || decide (d i j = RVal.nan)

/-- A cartopy (GeoAxes) contour or filled-contour call: raises ValueError on
a blank contour set, otherwise records the call. -/
def geoContourSeg (filled : Bool) (src : CSite) (x y d : D2) (cm : M2) (ny nx : Nat)
    (levels : Option (List RVal)) : Seg :=
  if blank2 ny nx d cm then errSeg [] (.valueError blankContourMsg)
  else okSeg [if filled then Event.contourf src x y d cm levels
              else Event.contour src x y d cm levels]

/-- Lift a user contour-level list (`None` means automatic levels) to the
scalar type of the trace. -/
def levOfOpt (o : Option (List ℚ)) : Option (List RVal) :=
  o.map (List.map RVal.fin)

/-- Pointwise horizontal wind magnitude `np.ma.sqrt(u**2 + v**2)` of two 2-D
slices. -/
def magSlice (a b : D2) : D2 := fun i j => rmag (a i j) (b i j)

/-- The main-colorbar block: re-reads `Grids[bg_grid_no][background_field]`
and builds the label `long_name + " [" + units + "]"` from its attrs. -/
def attrS : Attr → String
  | .str s => s
  | .num q => toString q

/-- Keyword arguments of the plotting procedures that the model tracks. -/
structure VisArgs where
  background_field : String
  level : Nat
  vmin : Option ℚ
  vmax : Option ℚ
  u_vel_contours : Option (List ℚ)
  v_vel_contours : Option (List ℚ)
  w_vel_contours : Option (List ℚ)
  wind_vel_contours : Option (List ℚ)
  u_field : String
  v_field : String
  w_field : String
  show_lobes : Bool
  title_flag : Bool
  axes_labels_flag : Bool
  colorbar_flag : Bool
  colorbar_contour_flag : Bool
  bg_grid_no : Int
  coastlines : Bool
  gridlines : Bool

/-- The `if colorbar_flag is True` block shared by all four procedures. -/
def bgColorbarSeg (Grids : List Grid) (a : VisArgs) : Seg :=
  if a.colorbar_flag then
    match pyIdx Grids a.bg_grid_no with
    | none => errSeg [] .indexError
    | some g =>
      match g.fields a.background_field with
      | none => errSeg [] (.keyError a.background_field)
      | some da =>
        match da.attrs "long_name" with
        | none => errSeg [] (.keyError "long_name")
        | some ln =>
          match da.attrs "units" with
          | none => errSeg [] (.keyError "units")
          | some un => okSeg [Event.colorbar (attrS ln ++ " [" ++ attrS un ++ "]")]
  else okSeg []

/-- A `u_vel_contours`-style block of the non-map procedures:
`np.ma.filled` of the slice (identity on the already-filled plain winds), one
contour call, `clabel`, and optionally a contour colorbar. -/
def plainContourBranch (src : CSite) (x y d : D2) (levels : Option (List RVal))
    (cbflag : Bool) (lbl : String) : Seg :=
  okSeg ([Event.contour src x y d mfalse levels, Event.clabel] ++
    if cbflag then [Event.colorbar lbl] else [])

/-- The `wind_vel_contours` block of the non-map procedures: contour of the
magnitude, then `set_clim([np.min(lvls), np.max(lvls)])` (which raises a
ValueError on an empty level list), `clabel`, optional colorbar. -/
def plainWindBranch (src : CSite) (x y velD : D2) (lvls : List ℚ) (cbflag : Bool) : Seg :=
  seq (okSeg [Event.contour src x y velD mfalse (some (lvls.map RVal.fin))])
    (match lvls with
     | [] => errSeg [] (.valueError zeroSizeMsg)
     | q :: qs =>
       okSeg ([Event.setClim (.fin (qMin q qs)) (.fin (qMax q qs)), Event.clabel] ++
         if cbflag then [Event.colorbar "|V| [m/s]"] else []))

/-- The mask that `np.ma.masked_where(d < np.min(q :: qs), d)` attaches to the
(already NaN-filled, hence unmasked) wind slice `d` in the map-variant contour
blocks: a cell is hidden exactly when its value compares below the smallest
requested contour level (NaN comparisons are False). -/
def thMask (d : D2) (q : ℚ) (qs : List ℚ) : M2 :=
  fun i j => mfalse i j || rltQ (d i j) (qMin q qs)

/-- A u/v/w contour block of the map variant: `np.min(ownLvls)` (raised
outside the try block), `np.ma.masked_where(slice < min, slice)`, then inside
`try ... except ValueError`: the cartopy contour(f) call with `contourLvls` as
levels, `set_clim` from `ownLvls`, `clabel` and the optional colorbar. -/
def mapVelBranch (site : CSite) (filled : Bool) (lon lat : D2) (sl : D2) (slm : M2)
    (ny nx : Nat) (ownLvls : List ℚ) (contourLvls : Option (List ℚ))
    (cbflag : Bool) (lbl wmsg : String) : Seg :=
  match ownLvls with
  | [] => errSeg [] (.valueError zeroSizeMsg)
  | q :: qs =>
    tryVE site wmsg
      (seq (geoContourSeg filled site lon lat sl
             (fun i j => slm i j || rltQ (sl i j) (qMin q qs)) ny nx (levOfOpt contourLvls))
        (okSeg ([Event.setClim (.fin (qMin q qs)) (.fin (qMax q qs)), Event.clabel] ++
          if cbflag then [Event.colorbar lbl] else [])))

/-- The `wind_vel_contours` block of the map variant: magnitude slice (NaN
filled, which is the identity for the plain winds), a cartopy contour on the
kilometre x/y coordinates inside `try ... except ValueError`, `clabel`,
optional colorbar (labelled with the source typo `"|V\\ [m/s]"`). -/
def mapWindBranch (xS yS velD : D2) (ny nx : Nat) (lvls : List ℚ) (cbflag : Bool) : Seg :=
  tryVE .mWind blankWarnB
    (seq (geoContourSeg false .mWind xS yS velD mfalse ny nx (some (lvls.map RVal.fin)))
      (okSeg ([Event.clabel] ++ if cbflag then [Event.colorbar "|V\\ [m/s]"] else [])))

/-- `math.radians` of an attribute value: a non-numeric attribute raises a
TypeError. -/
def attrRadians : Attr → Except PyErr RVal
  | .num q => .ok (.rad q)
  | .str _ => .error (.typeError "must be a real number, not str")

/-- One dual-Doppler lobe contour: the bca field of a pair of grids drawn at
levels `[bca_min, bca_max]`; on a GeoAxes (map variant) the call can raise the
blank-contour ValueError, which no handler catches here. -/
def lobeSeg (geo : Bool) (src : CSite) (x y : D2) (ny nx : Nat) (g1 g2 : Grid)
    (bmin bmax : RVal) : Seg :=
  if geo then
    geoContourSeg false src x y (retrieval.get_bca g1 g2) mfalse ny nx (some [bmin, bmax])
  else
    okSeg [Event.contour src x y (retrieval.get_bca g1 g2) mfalse (some [bmin, bmax])]

/-- The double loop over ordered pairs of distinct grids drawing the lobes. -/
def lobesLoop (geo : Bool) (src : CSite) (x y : D2) (ny nx : Nat) (Grids : List Grid)
    (bmin bmax : RVal) : Seg :=
  seqAll ((Grids.enum.flatMap fun gi => Grids.enum.map fun gj => (gi, gj)).filterMap
    fun p => if p.1.1 ≠ p.2.1 then some (lobeSeg geo src x y ny nx p.1.2 p.2.2 bmin bmax)
             else none)

/-- The bca block of the horizontal procedures: `math.radians` of the
`min_bca`/`max_bca` attrs of the u field (read unconditionally), then the
lobes loop when `show_lobes` is set. -/
def bcaSection (geo : Bool) (src : CSite) (uDA : DataArray) (showLobes : Bool)
    (Grids : List Grid) (x y : D2) (ny nx : Nat) : Seg :=
  match uDA.attrs "min_bca" with
  | none => errSeg [] (.keyError "min_bca")
  | some amn =>
    match uDA.attrs "max_bca" with
    | none => errSeg [] (.keyError "max_bca")
    | some amx =>
      match attrRadians amn with
      | .error e => errSeg [] e
      | .ok bmin =>
        match attrRadians amx with
        | .error e => errSeg [] e
        | .ok bmax =>
          if showLobes then lobesLoop geo src x y ny nx Grids bmin bmax
          else okSeg []

/-- The axes-label block. -/
def labelsSeg (flag : Bool) (xl yl : String) : Seg :=
  if flag then okSeg [Event.setXlabel xl, Event.setYlabel yl] else okSeg []

/-- The title block. -/
def titleSeg (flag : Bool) (s : String) : Seg :=
  if flag then okSeg [Event.setTitle s] else okSeg []

/-- Option-to-Except lift for the dictionary and list accesses. -/
def exO {α : Type} (o : Option α) (e : PyErr) : Except PyErr α :=
  match o with
  | some a => .ok a
  | none => .error e

/-- Rounding to the nearest tenth as the tick helper uses it (rounding of
halves is approximated by floor of the shifted value). -/
def round1 (q : ℚ) : ℚ := ((Rat.floor (q * 10 + 1/2) : ℤ) : ℚ) / 10

/-- `np.linspace(lo, hi, n)`. -/
def linspaceQ (lo hi : ℚ) (n : Nat) : List ℚ :=
  if n = 0 then []
  else if n = 1 then [lo]
  else (List.range n).map fun i => lo + (hi - lo) * i / ((n : ℚ) - 1)

/-- The tick positions of the map variant: one tick per tenth of a degree
between the extremes of a coordinate array, rounded to one decimal. -/
def ticksOf (ny nx : Nat) (d : D2) : List RVal :=
  match amin2 ny nx d, amax2 ny nx d with
  | .fin lo, .fin hi =>
    let n : Nat := (Rat.floor ((hi - lo) * 10 + 1/2) + 1).toNat
    (linspaceQ lo hi n).map fun q => RVal.fin (round1 q)
  | _, _ => []

/-- The values the non-map procedures read from the grids before the first
plotting call. -/
structure Env where
  gbg : Grid
  bgDA : DataArray
  grid_bg : NpArr
  vminV : RVal
  vmaxV : RVal
  grid_h : NpArr
  grid_x : NpArr
  grid_y : NpArr
  g0 : Grid
  uDA : DataArray
  vDA : DataArray
  wDA : DataArray
  u : NpArr
  v : NpArr
  w : NpArr
deriving Inhabited

/-- The read-only prelude shared by `plot_horiz_xsection_streamlines`,
`plot_xz_xsection_streamlines` and `plot_yz_xsection_streamlines`, in source
order: the background grid and field, the vmin/vmax defaults, the coordinate
fields of `Grids[0]` divided by 1e3, and the three wind components of
`Grids[0]` (NaN-filled when masked).  No plotting call precedes these reads,
so a failed dictionary or list access raises before any call is issued. -/
def visSetup (Grids : List Grid) (a : VisArgs) : Except PyErr Env := do
  let gbg ← exO (pyIdx Grids a.bg_grid_no) .indexError
  let bgDA ← exO (gbg.fields a.background_field) (.keyError a.background_field)
  let grid_bg := bgDA.values
  let vminV := a.vmin.elim grid_bg.aminV RVal.fin
  let vmaxV := a.vmax.elim grid_bg.amaxV RVal.fin
  let g0 ← exO (pyIdx Grids 0) .indexError
  let hDA ← exO (g0.fields "point_altitude") (.keyError "point_altitude")
  let xDA ← exO (g0.fields "point_x") (.keyError "point_x")
  let yDA ← exO (g0.fields "point_y") (.keyError "point_y")
  let uDA ← exO (g0.fields a.u_field) (.keyError a.u_field)
  let vDA ← exO (g0.fields a.v_field) (.keyError a.v_field)
  let wDA ← exO (g0.fields a.w_field) (.keyError a.w_field)
  return { gbg, bgDA, grid_bg, vminV, vmaxV,
           grid_h := hDA.values.div1000, grid_x := xDA.values.div1000,
           grid_y := yDA.values.div1000, g0, uDA, vDA, wDA,
           u := fillIfMasked uDA.values, v := fillIfMasked vDA.values,
           w := fillIfMasked wDA.values }

/-- What distinguishes the three non-map procedures from one another: the
slices handed to each call, the level list used by the v contour block, the
lobes block, and the display strings. -/
structure FlatCfg where
  meshSrc : CSite
  streamSrc : CSite
  uSrc : CSite
  vSrc : CSite
  wSrc : CSite
  windSrc : CSite
  xD : D2
  yD : D2
  bgD : D2
  bgM : M2
  vminV : RVal
  vmaxV : RVal
  sU : D2
  sV : D2
  cU : D2
  cV : D2
  cW : D2
  vLevels : Option (List ℚ)
  windD : D2
  bcaSeg : Seg
  xlbl : String
  ylbl : String
  title : String
  xlims : RVal × RVal
  ylims : RVal × RVal

/-- The post-prelude body shared by the three non-map procedures: mesh,
streamlines, main colorbar, the four optional contour blocks, the lobes
block, labels, title and the axis limits. -/
def flatAfter (Grids : List Grid) (a : VisArgs) (c : FlatCfg) : Seg :=
  seq (okSeg [Event.pcolormesh c.meshSrc c.xD c.yD c.bgD c.bgM c.vminV c.vmaxV])
  (seq (okSeg [Event.streamplot c.streamSrc c.xD c.yD c.sU c.sV])
  (seq (bgColorbarSeg Grids a)
  (seq (match a.u_vel_contours with
        | none => okSeg []
        | some l => plainContourBranch c.uSrc c.xD c.yD c.cU (some (l.map RVal.fin))
            a.colorbar_contour_flag "U [m/s]")
  (seq (match a.v_vel_contours with
        | none => okSeg []
        | some _ => plainContourBranch c.vSrc c.xD c.yD c.cV (levOfOpt c.vLevels)
            a.colorbar_contour_flag "V [m/s]")
  (seq (match a.w_vel_contours with
        | none => okSeg []
        | some l => plainContourBranch c.wSrc c.xD c.yD c.cW (some (l.map RVal.fin))
            a.colorbar_contour_flag "W [m/s]")
  (seq (match a.wind_vel_contours with
        | none => okSeg []
        | some l => plainWindBranch c.windSrc c.xD c.yD c.windD l a.colorbar_contour_flag)
  (seq c.bcaSeg
  (seq (labelsSeg a.axes_labels_flag c.xlbl c.ylbl)
  (seq (titleSeg a.title_flag c.title)
  (okSeg [Event.setXlim c.xlims.1 c.xlims.2, Event.setYlim c.ylims.1 c.ylims.2]))))))))))

/-- Instantiation of the shared body for the horizontal cross section:
`[level, :, :]` slices, u/v streamlines, the v contour block drawn with
`levels=u_vel_contours`, and the dual-Doppler lobes. -/
def horizCfg (Grids : List Grid) (a : VisArgs) (env : Env) : FlatCfg :=
  { meshSrc := .hMesh, streamSrc := .hStream, uSrc := .hU, vSrc := .hV,
    wSrc := .hW, windSrc := .hWind,
    xD := env.grid_x.sl0 a.level, yD := env.grid_y.sl0 a.level,
    bgD := env.grid_bg.sl0 a.level, bgM := env.grid_bg.sm0 a.level,
    vminV := env.vminV, vmaxV := env.vmaxV,
    sU := env.u.sl0 a.level, sV := env.v.sl0 a.level,
    cU := env.u.sl0 a.level, cV := env.v.sl0 a.level, cW := env.w.sl0 a.level,
    vLevels := a.u_vel_contours,
    windD := magSlice (env.u.sl0 a.level) (env.v.sl0 a.level),
    bcaSeg := bcaSection false .hLobes env.uDA a.show_lobes Grids
      (env.grid_x.sl0 a.level) (env.grid_y.sl0 a.level) env.g0.ny env.g0.nx,
    xlbl := "X [km]", ylbl := "Y [km]",
    title := "PyDDA retreived winds @" ++ rstr (env.grid_h.dat a.level 0 0) ++ " km",
    xlims := (env.grid_x.aminV, env.grid_x.amaxV),
    ylims := (env.grid_y.aminV, env.grid_y.amaxV) }

/-- Instantiation of the shared body for the X-Z cross section:
`[:, level, :]` slices, u/w streamlines against altitude, a v contour block
that draws the w slice (as the source does) with `levels=v_vel_contours`,
no lobes block. -/
def xzCfg (a : VisArgs) (env : Env) : FlatCfg :=
  { meshSrc := .xzMesh, streamSrc := .xzStream, uSrc := .xzU, vSrc := .xzV,
    wSrc := .xzW, windSrc := .xzWind,
    xD := env.grid_x.sl1 a.level, yD := env.grid_h.sl1 a.level,
    bgD := env.grid_bg.sl1 a.level, bgM := env.grid_bg.sm1 a.level,
    vminV := env.vminV, vmaxV := env.vmaxV,
    sU := env.u.sl1 a.level, sV := env.w.sl1 a.level,
    cU := env.u.sl1 a.level, cV := env.w.sl1 a.level, cW := env.w.sl1 a.level,
    vLevels := a.v_vel_contours,
    windD := magSlice (env.u.sl1 a.level) (env.v.sl1 a.level),
    bcaSeg := okSeg [],
    xlbl := "X [km]", ylbl := "Z [km]",
    title :=
      if rgt0 (env.grid_y.dat 0 a.level 0) then
        "PyDDA retreived winds @" ++ rstr (env.grid_y.dat 0 a.level 0) ++ " km north of origin."
      else
        "PyDDA retreived winds @" ++ rstr (rneg (env.grid_y.dat 0 a.level 0)) ++ " km south of origin.",
    xlims := (env.grid_x.aminV, env.grid_x.amaxV),
    ylims := (env.grid_h.aminV, env.grid_h.amaxV) }

/-- Instantiation of the shared body for the Y-Z cross section:
`[:, :, level]` slices, v/w streamlines against altitude, a v contour block
drawn with `levels=w_vel_contours` (as the source does), no lobes block; the
title tests `grid_x[0, 0, level]` but displays `grid_x[0, level, 0]`, again
as the source does. -/
def yzCfg (a : VisArgs) (env : Env) : FlatCfg :=
  { meshSrc := .yzMesh, streamSrc := .yzStream, uSrc := .yzU, vSrc := .yzV,
    wSrc := .yzW, windSrc := .yzWind,
    xD := env.grid_y.sl2 a.level, yD := env.grid_h.sl2 a.level,
    bgD := env.grid_bg.sl2 a.level, bgM := env.grid_bg.sm2 a.level,
    vminV := env.vminV, vmaxV := env.vmaxV,
    sU := env.v.sl2 a.level, sV := env.w.sl2 a.level,
    cU := env.u.sl2 a.level, cV := env.v.sl2 a.level, cW := env.w.sl2 a.level,
    vLevels := a.w_vel_contours,
    windD := magSlice (env.u.sl2 a.level) (env.v.sl2 a.level),
    bcaSeg := okSeg [],
    xlbl := "Y [km]", ylbl := "Z [km]",
    title :=
      if rgt0 (env.grid_x.dat 0 0 a.level) then
        "PyDDA retreived winds @" ++ rstr (env.grid_x.dat 0 a.level 0) ++ " km east of origin."
      else
        "PyDDA retreived winds @" ++ rstr (rneg (env.grid_x.dat 0 a.level 0)) ++ " km west of origin.",
    xlims := (env.grid_y.aminV, env.grid_y.amaxV),
    ylims := (env.grid_h.aminV, env.grid_h.amaxV) }

/-- `plot_horiz_xsection_streamlines`: the returned grid list is the list the
caller passed, which the body only reads. -/
def plot_horiz_xsection_streamlines (Grids : List Grid) (a : VisArgs) : List Grid × Seg :=
  (Grids,
    match visSetup Grids a with
    | .error e => errSeg [] e
    | .ok env => flatAfter Grids a (horizCfg Grids a env))

/-- `plot_xz_xsection_streamlines`. -/
def plot_xz_xsection_streamlines (Grids : List Grid) (a : VisArgs) : List Grid × Seg :=
  (Grids,
    match visSetup Grids a with
    | .error e => errSeg [] e
    | .ok env => flatAfter Grids a (xzCfg a env))

/-- `plot_yz_xsection_streamlines`. -/
def plot_yz_xsection_streamlines (Grids : List Grid) (a : VisArgs) : List Grid × Seg :=
  (Grids,
    match visSetup Grids a with
    | .error e => errSeg [] e
    | .ok env => flatAfter Grids a (yzCfg a env))

/-- The comprehension `[x[background_field].values.squeeze() for x in Grids]`
(KeyError as soon as one grid lacks the field). -/
def collectBg (Grids : List Grid) (f : String) : Except PyErr (List NpArr) :=
  match Grids with
  | [] => .ok []
  | g :: t =>
    match g.fields f with
    | none => .error (.keyError f)
    | some da =>
      match collectBg t f with
      | .error e => .error e
      | .ok rest => .ok (da.values :: rest)

/-- One cell of `np.ma.stack(arrays).max(axis=0)`: the maximum over the
entries the masks do not hide; a cell every array masks is masked in the
result. -/
def cellMax (l : List NpArr) (i j k : Nat) : RVal × Bool :=
  match l.filterMap (fun n => if n.isMa && n.mask i j k then none else some (n.dat i j k)) with
  | [] => (.nan, true)
  | v :: vs => (vs.foldl rmax v, false)

/-- `np.ma.stack(x :: xs).max(axis=0)` as a masked array of the shape of the
first operand. -/
def maStackMax (x : NpArr) (xs : List NpArr) : NpArr :=
  { nz := x.nz, ny := x.ny, nx := x.nx,
    dat := fun i j k => (cellMax (x :: xs) i j k).1,
    mask := fun i j k => (cellMax (x :: xs) i j k).2,
    isMa := true }

/-- The background selection of the map variant: a direct lookup when
`bg_grid_no > -1`, otherwise the elementwise maximum over all grids
(`np.ma.stack` of an empty comprehension raises a ValueError). -/
def mapBg (Grids : List Grid) (a : VisArgs) : Except PyErr NpArr :=
  if (-1 : Int) < a.bg_grid_no then
    match pyIdx Grids a.bg_grid_no with
    | none => .error .indexError
    | some g =>
      match g.fields a.background_field with
      | none => .error (.keyError a.background_field)
      | some da => .ok da.values
  else
    match collectBg Grids a.background_field with
    | .error e => .error e
    | .ok [] => .error (.valueError stackEmptyMsg)
    | .ok (x :: xs) => .ok (maStackMax x xs)

/-- The values the map variant reads before its first plotting call, in
source order; `lat`/`lon` are the `[level]` slices of the point latitude and
longitude data of `Grids[0]`. -/
structure MEnv where
  grid_bg : NpArr
  vminV : RVal
  vmaxV : RVal
  grid_h : NpArr
  grid_x : NpArr
  grid_y : NpArr
  lat : D2
  lon : D2
  g0 : Grid
  uDA : DataArray
  vDA : DataArray
  wDA : DataArray
  u : NpArr
  v : NpArr
  w : NpArr
deriving Inhabited

/-- The read-only prelude of the map variant. -/
def mapSetup (Grids : List Grid) (a : VisArgs) : Except PyErr MEnv := do
  let grid_bg ← mapBg Grids a
  let vminV := a.vmin.elim grid_bg.aminV RVal.fin
  let vmaxV := a.vmax.elim grid_bg.amaxV RVal.fin
  let g0 ← exO (pyIdx Grids 0) .indexError
  let hDA ← exO (g0.fields "point_altitude") (.keyError "point_altitude")
  let xDA ← exO (g0.fields "point_x") (.keyError "point_x")
  let yDA ← exO (g0.fields "point_y") (.keyError "point_y")
  let uDA ← exO (g0.fields a.u_field) (.keyError a.u_field)
  let vDA ← exO (g0.fields a.v_field) (.keyError a.v_field)
  let wDA ← exO (g0.fields a.w_field) (.keyError a.w_field)
  return { grid_bg, vminV, vmaxV, grid_h := hDA.values.div1000,
           grid_x := xDA.values.div1000, grid_y := yDA.values.div1000,
           lat := fun i j => g0.pointLatitude a.level i j,
           lon := fun i j => g0.pointLongitude a.level i j,
           g0, uDA, vDA, wDA,
           u := fillIfMasked uDA.values, v := fillIfMasked vDA.values,
           w := fillIfMasked wDA.values }

/-- The body of the map variant after its prelude: mesh and streamlines on
the longitude/latitude coordinates of the `[level]` slice, the main colorbar,
the four contour blocks each wrapped in `try ... except ValueError` (the v
block drawing with `levels=u_vel_contours`), the lobes block (not wrapped),
labels, title, coastlines, gridlines, extent and degree ticks. -/
def mapAfter (Grids : List Grid) (a : VisArgs) (env : MEnv) : Seg :=
  seq (okSeg [Event.pcolormesh .mMesh env.lon env.lat (env.grid_bg.sl0 a.level)
        (env.grid_bg.sm0 a.level) env.vminV env.vmaxV])
  (seq (okSeg [Event.streamplot .mStream env.lon env.lat (env.u.sl0 a.level) (env.v.sl0 a.level)])
  (seq (bgColorbarSeg Grids a)
  (seq (match a.u_vel_contours with
        | none => okSeg []
        | some l => mapVelBranch .mU true env.lon env.lat (env.u.sl0 a.level) mfalse env.g0.ny env.g0.nx l
            (some l) a.colorbar_contour_flag "U [m/s]" blankWarnA)
  (seq (match a.v_vel_contours with
        | none => okSeg []
        | some l => mapVelBranch .mV false env.lon env.lat (env.v.sl0 a.level) mfalse env.g0.ny env.g0.nx l
            a.u_vel_contours a.colorbar_contour_flag "V [m/s]" blankWarnA)
  (seq (match a.w_vel_contours with
        | none => okSeg []
        | some l => mapVelBranch .mW false env.lon env.lat (env.w.sl0 a.level) mfalse env.g0.ny env.g0.nx l
            (some l) a.colorbar_contour_flag "W [m/s]" blankWarnB)
  (seq (match a.wind_vel_contours with
        | none => okSeg []
        | some l => mapWindBranch (env.grid_x.sl0 a.level) (env.grid_y.sl0 a.level)
            (magSlice (env.u.sl0 a.level) (env.v.sl0 a.level)) env.g0.ny env.g0.nx l a.colorbar_contour_flag)
  (seq (bcaSection true .mLobes env.uDA a.show_lobes Grids env.lon env.lat env.g0.ny env.g0.nx)
  (seq (labelsSeg a.axes_labels_flag "Latitude [$^\x7b\\circ\x7d$]" "Longitude [$^\x7b\\circ\x7d$]")
  (seq (titleSeg a.title_flag ("PyDDA retreived winds @" ++ rstr (env.grid_h.dat a.level 0 0) ++ " km"))
  (seq (if a.coastlines then okSeg [Event.coastlines] else okSeg [])
  (seq (if a.gridlines then okSeg [Event.gridlines] else okSeg [])
  (okSeg [Event.setExtent (amin2 env.g0.ny env.g0.nx env.lon) (amax2 env.g0.ny env.g0.nx env.lon)
            (amin2 env.g0.ny env.g0.nx env.lat) (amax2 env.g0.ny env.g0.nx env.lat),
          Event.setXticks (ticksOf env.g0.ny env.g0.nx env.lon),
          Event.setYticks (ticksOf env.g0.ny env.g0.nx env.lat)]))))))))))))

/-- The module-level state the plotting module holds after a successful
import: the cartopy availability flag and the pcolormesh patch of GeoAxes. -/
structure ModState where
  cartopyAvailable : Bool
  pcolormeshPatched : Bool
deriving DecidableEq, Repr

/-- The import-time behaviour of the module: the `try`/`except ImportError`
sets `CARTOPY_AVAILABLE`, and then the unconditional
`GeoAxes._pcolormesh_patched = Axes.pcolormesh` runs outside that block, so a
failed geoaxes import leaves `GeoAxes` undefined and the import dies with a
NameError; a successful import leaves both flags set. -/
def moduleInit (geoaxesImportOk : Bool) : Except PyErr ModState :=
  if geoaxesImportOk then .ok { cartopyAvailable := true, pcolormeshPatched := true }
  else .error (.nameError "GeoAxes")

/-- `plot_horiz_xsection_streamlines_map`: the guard on `CARTOPY_AVAILABLE`
raises a ModuleNotFoundError before anything else; the module state and the
grid list are returned as the call leaves them. -/
def plot_horiz_xsection_streamlines_map (ms : ModState) (Grids : List Grid) (a : VisArgs) :
    ModState × List Grid × Seg :=
  (ms, Grids,
    if ms.cartopyAvailable then
      match mapSetup Grids a with
      | .error e => errSeg [] e
      | .ok env => mapAfter Grids a env
    else
      errSeg [] (.moduleNotFound "Cartopy needs to be installed in order to use plotting module!"))

/-- Modelled from the spec: the values flowing through the example script
`plot_hurricane_florence.py`.  The functions the script calls (the Herbie
download client, `pydda.io.read_grid`, `pydda.constraints`,
`pydda.initialization` and `pydda.retrieval.get_dd_wind_field`) are repository
or third-party code outside the excerpt, so each is modelled as an opaque
constructor recording its inputs; the script itself is glue that threads
these values. -/
inductive SVal where
  | sampleFile (n : String)
  | gridOf (f : SVal)
  | hrrrData (date : String)
  | withHrrr (g h : SVal)
  | withConstWind (g : SVal) (u v w : ℚ)
  | ddOutput (g1 g2 : SVal)
deriving DecidableEq, Repr

/-- The calls the example script issues, in program order, with the values
each one receives. -/
inductive ScriptEv where
  | herbieInit (date model product : String) (fxx : Nat)
  | herbieDownload (h : SVal)
  | getSampleFile (n : String)
  | readGrid (f : SVal)
  | addHrrrConstraint (g h : SVal)
  | makeConstantWindField (g : SVal) (u v w : ℚ)
  | getDdWindField (g1 g2 : SVal) (engine : String) (modelFields : List String)
  | figure
  | axesPlateCarree
  | visPlotBarbsMap (gs : SVal) (bgNo : Int) (lvl : Nat)
  | setXticksS
  | setYticksS
  | titleS
  | showS
deriving DecidableEq, Repr

/-- The statements of `plot_hurricane_florence.py` as a trace: Herbie
download, reading the two sample grids, attaching the HRRR constraint and the
constant initial wind to the first grid, the retrieval over both grids with
the HRRR model field, and a single call into the visualization layer on the
retrieval output, followed by purely cosmetic figure calls. -/
def florenceScript : List ScriptEv :=
  let h := SVal.hrrrData "2018-09-14 06:00"
  let fm := SVal.sampleFile "grid_mhx.nc"
  let fl := SVal.sampleFile "grid_ltx.nc"
  let gm := SVal.gridOf fm
  let gl := SVal.gridOf fl
  let gm1 := SVal.withHrrr gm h
  let gm2 := SVal.withConstWind gm1 0 0 0
  [ .herbieInit "2018-09-14 06:00" "hrrr" "prs" 0,
    .herbieDownload h,
    .getSampleFile "grid_mhx.nc",
    .getSampleFile "grid_ltx.nc",
    .readGrid fm,
    .readGrid fl,
    .addHrrrConstraint gm h,
    .makeConstantWindField gm1 0 0 0,
    .getDdWindField gm2 gl "scipy" ["hrrr"],
    .figure,
    .axesPlateCarree,
    .visPlotBarbsMap (SVal.ddOutput gm2 gl) (-1) 3,
    .setXticksS,
    .setYticksS,
    .titleS,
    .showS ]

/-- Recognizer of calls into the visualization layer within the script. -/
def isVisCall : ScriptEv → Bool
  | .visPlotBarbsMap _ _ _ => true
  | _ => false

/-- The catch site of an event, when it records a caught exception. -/
def catchOf : Event → Option CSite
  | .caught s _ => some s
  | _ => none

/-- The catch sites recorded in a trace, in order of occurrence. -/
def caughtSites (tr : List Event) : List CSite := tr.filterMap catchOf

/-- State machine checking that every caught exception in a trace occurs at
one of the four contour sites of the map variant, is the blank-contour
ValueError, and is immediately followed by one of the two RuntimeWarning
messages; the Boolean pair is (valid so far, a warning is due next). -/
def nbcStep : Bool × Bool → Event → Bool × Bool
  | (ok, true), Event.warnRuntime m =>
      (ok && decide (m = blankWarnA ∨ m = blankWarnB), false)
  | (_, true), _ => (false, false)
  | (ok, false), Event.caught s e =>
      (ok && decide ((s = CSite.mU ∨ s = CSite.mV ∨ s = CSite.mW ∨ s = CSite.mWind) ∧
        e = PyErr.valueError blankContourMsg), true)
  | (ok, false), _ => (ok, false)

/-- A trace has no bare or foreign catches: every caught exception is the
blank-contour ValueError at one of the four map contour sites and its handler
immediately issues a RuntimeWarning. -/
def noBareCatch (tr : List Event) : Bool :=
  (tr.foldl nbcStep (true, false)).1 && !(tr.foldl nbcStep (true, false)).2

/-- Whether an exception is the ModuleNotFoundError of the cartopy guard. -/
def PyErr.isMNF : PyErr → Bool
  | .moduleNotFound _ => true
  | _ => false

/-- Membership in the trace of a sequential composition. -/
theorem seq_mem_cases {e : Event} {a b : Seg} (h : e ∈ (seq a b).1) :
    e ∈ a.1 ∨ e ∈ b.1 := by
  rcases a with ⟨evs, r⟩
  cases r with
  | error er => simp only [seq] at h; exact Or.inl h
  | ok u => simp only [seq] at h; exact (List.mem_append.mp h)

/-- Lifting a pointwise trace property through sequential composition. -/
theorem seq_forall {P : Event → Prop} {a b : Seg}
    (ha : ∀ e ∈ a.1, P e) (hb : ∀ e ∈ b.1, P e) :
    ∀ e ∈ (seq a b).1, P e := by
  intro e he
  rcases seq_mem_cases he with h | h
  · exact ha e h
  · exact hb e h

/-- Events of the first region stay in the composed trace. -/
theorem seq_mem_left {e : Event} {a : Seg} (b : Seg) (h : e ∈ a.1) :
    e ∈ (seq a b).1 := by
  rcases a with ⟨evs, r⟩
  cases r with
  | error er => simpa [seq] using h
  | ok u => simp only [seq]; exact List.mem_append.mpr (Or.inl h)

/-- Events of the second region stay in the composed trace when the first
region completes normally. -/
theorem seq_mem_right {e : Event} {a b : Seg} (ha : a.2 = Except.ok ()) (h : e ∈ b.1) :
    e ∈ (seq a b).1 := by
  rcases a with ⟨evs, r⟩
  cases r with
  | error er => simp at ha
  | ok u => simp only [seq]; exact List.mem_append.mpr (Or.inr h)

/-- The exception of a sequential composition comes from one of its parts. -/
theorem seq_err_cases {a b : Seg} {e : PyErr} (h : (seq a b).2 = Except.error e) :
    a.2 = Except.error e ∨ b.2 = Except.error e := by
  rcases a with ⟨evs, r⟩
  cases r with
  | error er => simp only [seq] at h; exact Or.inl h
  | ok u => simp only [seq] at h; exact Or.inr h

/-- Lifting a pointwise trace property through `seqAll`. -/
theorem seqAll_forall {P : Event → Prop} {l : List Seg}
    (h : ∀ s ∈ l, ∀ e ∈ s.1, P e) : ∀ e ∈ (seqAll l).1, P e := by
  induction l with
  | nil => intro e he; simp [seqAll, okSeg] at he
  | cons s t ih =>
    intro e he
    rcases seq_mem_cases he with hs | ht
    · exact h s (by simp) e hs
    · exact ih (fun s2 hs2 => h s2 (by simp [hs2])) e ht

/-- The exception of `seqAll` comes from one of the regions. -/
theorem seqAll_err_cases {l : List Seg} {e : PyErr}
    (h : (seqAll l).2 = Except.error e) : ∃ s ∈ l, s.2 = Except.error e := by
  induction l with
  | nil => simp [seqAll, okSeg] at h
  | cons s t ih =>
    rcases seq_err_cases h with hs | ht
    · exact ⟨s, by simp, hs⟩
    · rcases ih ht with ⟨s2, hs2, h2⟩
      exact ⟨s2, by simp [hs2], h2⟩

/-- Pointwise property over a one-call region. -/
theorem forall_singleton {P : Event → Prop} {x : Event} (h : P x) : ∀ e ∈ [x], P e := by
  intro e he
  simp at he
  subst he
  exact h

/-- Pointwise property over a two-call region. -/
theorem forall_pair {P : Event → Prop} {x y : Event} (hx : P x) (hy : P y) :
    ∀ e ∈ [x, y], P e := by
  intro e he
  simp at he
  rcases he with h | h
  · subst h; exact hx
  · subst h; exact hy

/-- Trace of `okSeg` is its event list. -/
theorem okSeg_forall {P : Event → Prop} {l : List Event} (h : ∀ e ∈ l, P e) :
    ∀ e ∈ (okSeg l).1, P e := h

/-- The main-colorbar block only ever issues a colorbar call. -/
theorem bgColorbarSeg_forall {P : Event → Prop} {Grids : List Grid} {a : VisArgs}
    (h : ∀ s, P (Event.colorbar s)) : ∀ e ∈ (bgColorbarSeg Grids a).1, P e := by
  intro e he
  unfold bgColorbarSeg at he
  repeat' split at he
  all_goals simp [okSeg, errSeg] at he
  subst he
  exact h _

/-- Calls issued by a non-map contour block. -/
theorem plainContourBranch_forall {P : Event → Prop} {src : CSite} {x y d : D2}
    {lv : Option (List RVal)} {cb : Bool} {lbl : String}
    (hc : P (Event.contour src x y d mfalse lv)) (hl : P Event.clabel)
    (hcb : P (Event.colorbar lbl)) :
    ∀ e ∈ (plainContourBranch src x y d lv cb lbl).1, P e := by
  intro e he
  unfold plainContourBranch at he
  split at he
  · simp [okSeg] at he
    rcases he with h | h | h
    · subst h; exact hc
    · subst h; exact hl
    · subst h; exact hcb
  · simp [okSeg] at he
    rcases he with h | h
    · subst h; exact hc
    · subst h; exact hl

/-- Calls issued by a non-map wind-magnitude contour block. -/
theorem plainWindBranch_forall {P : Event → Prop} {src : CSite} {x y velD : D2}
    {lvls : List ℚ} {cb : Bool}
    (hc : P (Event.contour src x y velD mfalse (some (lvls.map RVal.fin))))
    (hsc : ∀ lo hi, P (Event.setClim lo hi)) (hl : P Event.clabel)
    (hcb : P (Event.colorbar "|V| [m/s]")) :
    ∀ e ∈ (plainWindBranch src x y velD lvls cb).1, P e := by
  intro e he
  unfold plainWindBranch at he
  rcases seq_mem_cases he with h | h
  · simp [okSeg] at h
    subst h
    exact hc
  · cases lvls with
    | nil => simp [errSeg] at h
    | cons q qs =>
      by_cases hflag : cb = true
      · simp [okSeg, hflag] at h
        rcases h with h2 | h2 | h2
        · subst h2; exact hsc _ _
        · subst h2; exact hl
        · subst h2; exact hcb
      · simp [okSeg, hflag] at h
        rcases h with h2 | h2
        · subst h2; exact hsc _ _
        · subst h2; exact hl

/-- Calls issued by a `try`-wrapped region: the calls of the body, plus a
caught ValueError and the warning. -/
theorem tryVE_forall {P : Event → Prop} {site : CSite} {wmsg : String} {body : Seg}
    (hb : ∀ e ∈ body.1, P e)
    (hcaught : ∀ m, P (Event.caught site (PyErr.valueError m)))
    (hwarn : P (Event.warnRuntime wmsg)) :
    ∀ e ∈ (tryVE site wmsg body).1, P e := by
  intro e he
  rcases body with ⟨evs, r⟩
  cases r with
  | ok u => exact hb e he
  | error er =>
    cases er with
    | valueError m =>
      simp only [tryVE] at he
      rcases List.mem_append.mp he with h | h
      · exact hb e h
      · simp at h
        rcases h with h | h
        · subst h; exact hcaught m
        · subst h; exact hwarn
    | keyError k => exact hb e he
    | indexError => exact hb e he
    | typeError m => exact hb e he
    | nameError n => exact hb e he
    | moduleNotFound m => exact hb e he

/-- A cartopy contour call issues at most its one contour(f) call. -/
theorem geoContourSeg_forall {P : Event → Prop} {filled : Bool} {src : CSite}
    {x y d : D2} {cm : M2} {ny nx : Nat} {lv : Option (List RVal)}
    (hc : P (Event.contour src x y d cm lv)) (hcf : P (Event.contourf src x y d cm lv)) :
    ∀ e ∈ (geoContourSeg filled src x y d cm ny nx lv).1, P e := by
  intro e he
  unfold geoContourSeg at he
  split at he
  · simp [errSeg] at he
  · simp [okSeg] at he
    cases filled with
    | true => simp at he; subst he; exact hcf
    | false => simp at he; subst he; exact hc

/-- Calls issued by a map-variant u/v/w contour block. -/
theorem mapVelBranch_forall {P : Event → Prop} {site : CSite} {filled : Bool}
    {lon lat sl : D2} {slm : M2} {ny nx : Nat} {own : List ℚ} {copt : Option (List ℚ)}
    {cb : Bool} {lbl wmsg : String}
    (hc : ∀ (q : ℚ) (qs : List ℚ), own = q :: qs →
      P (Event.contour site lon lat sl
        (fun i j => slm i j || rltQ (sl i j) (qMin q qs)) (levOfOpt copt)))
    (hcf : ∀ (q : ℚ) (qs : List ℚ), own = q :: qs →
      P (Event.contourf site lon lat sl
        (fun i j => slm i j || rltQ (sl i j) (qMin q qs)) (levOfOpt copt)))
    (hcaught : ∀ m, P (Event.caught site (PyErr.valueError m)))
    (hwarn : P (Event.warnRuntime wmsg))
    (hsc : ∀ lo hi, P (Event.setClim lo hi)) (hl : P Event.clabel)
    (hcb : P (Event.colorbar lbl)) :
    ∀ e ∈ (mapVelBranch site filled lon lat sl slm ny nx own copt cb lbl wmsg).1, P e := by
  intro e he
  unfold mapVelBranch at he
  cases own with
  | nil => simp [errSeg] at he
  | cons q qs =>
    refine tryVE_forall ?_ hcaught hwarn e he
    refine seq_forall (geoContourSeg_forall (hc q qs rfl) (hcf q qs rfl)) ?_
    intro e2 he2
    split at he2
    · simp [okSeg] at he2
      rcases he2 with h | h | h
      · subst h; exact hsc _ _
      · subst h; exact hl
      · subst h; exact hcb
    · simp [okSeg] at he2
      rcases he2 with h | h
      · subst h; exact hsc _ _
      · subst h; exact hl

/-- Calls issued by the map-variant wind-magnitude contour block. -/
theorem mapWindBranch_forall {P : Event → Prop} {xS yS velD : D2} {ny nx : Nat}
    {lvls : List ℚ} {cb : Bool}
    (hc : P (Event.contour .mWind xS yS velD mfalse (some (lvls.map RVal.fin))))
    (hcf : P (Event.contourf .mWind xS yS velD mfalse (some (lvls.map RVal.fin))))
    (hcaught : ∀ m, P (Event.caught .mWind (PyErr.valueError m)))
    (hwarn : P (Event.warnRuntime blankWarnB))
    (hl : P Event.clabel) (hcb : P (Event.colorbar "|V\\ [m/s]")) :
    ∀ e ∈ (mapWindBranch xS yS velD ny nx lvls cb).1, P e := by
  intro e he
  unfold mapWindBranch at he
  refine tryVE_forall ?_ hcaught hwarn e he
  refine seq_forall (geoContourSeg_forall hc hcf) ?_
  intro e2 he2
  split at he2
  · simp [okSeg] at he2
    rcases he2 with h | h
    · subst h; exact hl
    · subst h; exact hcb
  · simp [okSeg] at he2
    subst he2
    exact hl

/-- The second component of an enumerated list element is a list element. -/
theorem mem_of_mem_enum {α : Type} {l : List α} {p : Nat × α} (h : p ∈ l.enum) :
    p.2 ∈ l := by
  have h2 : p.2 ∈ l.enum.map Prod.snd := List.mem_map_of_mem Prod.snd h
  rwa [List.enum_map_snd] at h2

/-- Inversion of `math.radians` of an attribute. -/
theorem attrRadians_ok {a : Attr} {r : RVal} (h : attrRadians a = Except.ok r) :
    ∃ q, a = Attr.num q ∧ r = RVal.rad q := by
  cases a with
  | num q =>
    simp [attrRadians] at h
    exact ⟨q, rfl, h.symm⟩
  | str s => simp [attrRadians] at h

/-- Calls issued by one lobe contour. -/
theorem lobeSeg_forall {P : Event → Prop} {geo : Bool} {src : CSite} {x y : D2}
    {ny nx : Nat} {g1 g2 : Grid} {bmin bmax : RVal}
    (hc : P (Event.contour src x y (retrieval.get_bca g1 g2) mfalse (some [bmin, bmax])))
    (hcf : P (Event.contourf src x y (retrieval.get_bca g1 g2) mfalse (some [bmin, bmax]))) :
    ∀ e ∈ (lobeSeg geo src x y ny nx g1 g2 bmin bmax).1, P e := by
  intro e he
  unfold lobeSeg at he
  split at he
  · exact geoContourSeg_forall hc hcf e he
  · simp [okSeg] at he
    subst he
    exact hc

/-- Calls issued by the lobes double loop. -/
theorem lobesLoop_forall {P : Event → Prop} {geo : Bool} {src : CSite} {x y : D2}
    {ny nx : Nat} {Grids : List Grid} {bmin bmax : RVal}
    (h : ∀ g1 g2, g1 ∈ Grids → g2 ∈ Grids →
      P (Event.contour src x y (retrieval.get_bca g1 g2) mfalse (some [bmin, bmax])) ∧
      P (Event.contourf src x y (retrieval.get_bca g1 g2) mfalse (some [bmin, bmax]))) :
    ∀ e ∈ (lobesLoop geo src x y ny nx Grids bmin bmax).1, P e := by
  unfold lobesLoop
  refine seqAll_forall ?_
  intro s hs
  rcases List.mem_filterMap.mp hs with ⟨p, hp, hcond⟩
  simp only [List.mem_flatMap, List.mem_map] at hp
  rcases hp with ⟨gi, hgi, gj, hgj, hpp⟩
  subst hpp
  split at hcond
  · rcases Option.some.inj hcond with rfl
    have h1 : gi.2 ∈ Grids := mem_of_mem_enum hgi
    have h2 : gj.2 ∈ Grids := mem_of_mem_enum hgj
    exact lobeSeg_forall (h gi.2 gj.2 h1 h2).1 (h gi.2 gj.2 h1 h2).2
  · simp at hcond

/-- Calls issued by the bca block: lobe contours at radian levels only. -/
theorem bcaSection_forall {P : Event → Prop} {geo : Bool} {src : CSite} {uDA : DataArray}
    {showLobes : Bool} {Grids : List Grid} {x y : D2} {ny nx : Nat}
    (h : ∀ g1 g2 q1 q2, g1 ∈ Grids → g2 ∈ Grids →
      P (Event.contour src x y (retrieval.get_bca g1 g2) mfalse (some [RVal.rad q1, RVal.rad q2])) ∧
      P (Event.contourf src x y (retrieval.get_bca g1 g2) mfalse (some [RVal.rad q1, RVal.rad q2]))) :
    ∀ e ∈ (bcaSection geo src uDA showLobes Grids x y ny nx).1, P e := by
  intro e he
  unfold bcaSection at he
  rcases hmn : uDA.attrs "min_bca" with _ | amn
  · simp [hmn, errSeg] at he
  · rcases hmx : uDA.attrs "max_bca" with _ | amx
    · simp [hmn, hmx, errSeg] at he
    · rcases hr1 : attrRadians amn with e1 | bmin
      · simp [hmn, hmx, hr1, errSeg] at he
      · rcases hr2 : attrRadians amx with e2 | bmax
        · simp [hmn, hmx, hr1, hr2, errSeg] at he
        · rcases attrRadians_ok hr1 with ⟨q1, _, hq1⟩
          rcases attrRadians_ok hr2 with ⟨q2, _, hq2⟩
          subst hq1
          subst hq2
          by_cases hsl : showLobes = true
          · simp only [hmn, hmx, hr1, hr2, hsl, if_true] at he
            exact lobesLoop_forall (fun g1 g2 h1 h2 => h g1 g2 q1 q2 h1 h2) e he
          · simp [hmn, hmx, hr1, hr2, hsl, okSeg] at he

/-- Calls issued by the labels block. -/
theorem labelsSeg_forall {P : Event → Prop} {flag : Bool} {xl yl : String}
    (h1 : P (Event.setXlabel xl)) (h2 : P (Event.setYlabel yl)) :
    ∀ e ∈ (labelsSeg flag xl yl).1, P e := by
  intro e he
  unfold labelsSeg at he
  split at he
  · simp [okSeg] at he
    rcases he with h | h
    · subst h; exact h1
    · subst h; exact h2
  · simp [okSeg] at he

/-- Calls issued by the title block. -/
theorem titleSeg_forall {P : Event → Prop} {flag : Bool} {s : String}
    (h : P (Event.setTitle s)) : ∀ e ∈ (titleSeg flag s).1, P e := by
  intro e he
  unfold titleSeg at he
  split at he
  · simp [okSeg] at he
    subst he
    exact h
  · simp [okSeg] at he

/-- Master pointwise lemma for the shared non-map body: a property holding of
each call the body can issue holds of every event of its trace. -/
theorem flatAfter_forall {P : Event → Prop} {Grids : List Grid} {a : VisArgs} {c : FlatCfg}
    (hmesh : P (Event.pcolormesh c.meshSrc c.xD c.yD c.bgD c.bgM c.vminV c.vmaxV))
    (hstream : P (Event.streamplot c.streamSrc c.xD c.yD c.sU c.sV))
    (hcb : ∀ s, P (Event.colorbar s))
    (hu : ∀ l : List ℚ, a.u_vel_contours = some l →
      P (Event.contour c.uSrc c.xD c.yD c.cU mfalse (some (l.map RVal.fin))))
    (hv : ∀ l : List ℚ, a.v_vel_contours = some l →
      P (Event.contour c.vSrc c.xD c.yD c.cV mfalse (levOfOpt c.vLevels)))
    (hw : ∀ l : List ℚ, a.w_vel_contours = some l →
      P (Event.contour c.wSrc c.xD c.yD c.cW mfalse (some (l.map RVal.fin))))
    (hwind : ∀ l : List ℚ, a.wind_vel_contours = some l →
      P (Event.contour c.windSrc c.xD c.yD c.windD mfalse (some (l.map RVal.fin))))
    (hclim : ∀ lo hi, P (Event.setClim lo hi))
    (hclabel : P Event.clabel)
    (hbca : ∀ e ∈ c.bcaSeg.1, P e)
    (hxl : P (Event.setXlabel c.xlbl)) (hyl : P (Event.setYlabel c.ylbl))
    (htl : P (Event.setTitle c.title))
    (hxlim : P (Event.setXlim c.xlims.1 c.xlims.2))
    (hylim : P (Event.setYlim c.ylims.1 c.ylims.2)) :
    ∀ e ∈ (flatAfter Grids a c).1, P e := by
  unfold flatAfter
  refine seq_forall (forall_singleton hmesh)
    (seq_forall (forall_singleton hstream)
    (seq_forall (bgColorbarSeg_forall hcb)
    (seq_forall ?_
    (seq_forall ?_
    (seq_forall ?_
    (seq_forall ?_
    (seq_forall hbca
    (seq_forall (labelsSeg_forall hxl hyl)
    (seq_forall (titleSeg_forall htl)
    (forall_pair hxlim hylim))))))))))
  · intro e he
    rcases hx : a.u_vel_contours with _ | l
    · simp [hx, okSeg] at he
    · simp only [hx] at he
      exact plainContourBranch_forall (hu l hx) hclabel (hcb _) e he
  · intro e he
    rcases hx : a.v_vel_contours with _ | l
    · simp [hx, okSeg] at he
    · simp only [hx] at he
      exact plainContourBranch_forall (hv l hx) hclabel (hcb _) e he
  · intro e he
    rcases hx : a.w_vel_contours with _ | l
    · simp [hx, okSeg] at he
    · simp only [hx] at he
      exact plainContourBranch_forall (hw l hx) hclabel (hcb _) e he
  · intro e he
    rcases hx : a.wind_vel_contours with _ | l
    · simp [hx, okSeg] at he
    · simp only [hx] at he
      exact plainWindBranch_forall (hwind l hx) hclim hclabel (hcb _) e he

/-- Master pointwise lemma for the map-variant body. -/
theorem mapAfter_forall {P : Event → Prop} {Grids : List Grid} {a : VisArgs} {env : MEnv}
    (hmesh : P (Event.pcolormesh .mMesh env.lon env.lat (env.grid_bg.sl0 a.level)
      (env.grid_bg.sm0 a.level) env.vminV env.vmaxV))
    (hstream : P (Event.streamplot .mStream env.lon env.lat (env.u.sl0 a.level)
      (env.v.sl0 a.level)))
    (hcb : ∀ s, P (Event.colorbar s))
    (hmUc : ∀ (q : ℚ) (qs : List ℚ), a.u_vel_contours = some (q :: qs) →
      P (Event.contour .mU env.lon env.lat (env.u.sl0 a.level)
        (thMask (env.u.sl0 a.level) q qs) (levOfOpt (some (q :: qs)))))
    (hmUf : ∀ (q : ℚ) (qs : List ℚ), a.u_vel_contours = some (q :: qs) →
      P (Event.contourf .mU env.lon env.lat (env.u.sl0 a.level)
        (thMask (env.u.sl0 a.level) q qs) (levOfOpt (some (q :: qs)))))
    (hmVc : ∀ (q : ℚ) (qs : List ℚ), a.v_vel_contours = some (q :: qs) →
      P (Event.contour .mV env.lon env.lat (env.v.sl0 a.level)
        (thMask (env.v.sl0 a.level) q qs) (levOfOpt a.u_vel_contours)))
    (hmVf : ∀ (q : ℚ) (qs : List ℚ), a.v_vel_contours = some (q :: qs) →
      P (Event.contourf .mV env.lon env.lat (env.v.sl0 a.level)
        (thMask (env.v.sl0 a.level) q qs) (levOfOpt a.u_vel_contours)))
    (hmWc : ∀ (q : ℚ) (qs : List ℚ), a.w_vel_contours = some (q :: qs) →
      P (Event.contour .mW env.lon env.lat (env.w.sl0 a.level)
        (thMask (env.w.sl0 a.level) q qs) (levOfOpt (some (q :: qs)))))
    (hmWf : ∀ (q : ℚ) (qs : List ℚ), a.w_vel_contours = some (q :: qs) →
      P (Event.contourf .mW env.lon env.lat (env.w.sl0 a.level)
        (thMask (env.w.sl0 a.level) q qs) (levOfOpt (some (q :: qs)))))
    (hwindc : ∀ l : List ℚ, a.wind_vel_contours = some l →
      P (Event.contour .mWind (env.grid_x.sl0 a.level)
      (env.grid_y.sl0 a.level) (magSlice (env.u.sl0 a.level) (env.v.sl0 a.level)) mfalse
      (some (l.map RVal.fin))))
    (hwindf : ∀ l : List ℚ, a.wind_vel_contours = some l →
      P (Event.contourf .mWind (env.grid_x.sl0 a.level)
      (env.grid_y.sl0 a.level) (magSlice (env.u.sl0 a.level) (env.v.sl0 a.level)) mfalse
      (some (l.map RVal.fin))))
    (hcaught : ∀ site m, P (Event.caught site (PyErr.valueError m)))
    (hwarn : ∀ m, P (Event.warnRuntime m))
    (hclim : ∀ lo hi, P (Event.setClim lo hi))
    (hclabel : P Event.clabel)
    (hbca : ∀ g1 g2 q1 q2, g1 ∈ Grids → g2 ∈ Grids →
      P (Event.contour .mLobes env.lon env.lat (retrieval.get_bca g1 g2) mfalse
        (some [RVal.rad q1, RVal.rad q2])) ∧
      P (Event.contourf .mLobes env.lon env.lat (retrieval.get_bca g1 g2) mfalse
        (some [RVal.rad q1, RVal.rad q2])))
    (hxl : ∀ s, P (Event.setXlabel s)) (hyl : ∀ s, P (Event.setYlabel s))
    (htl : ∀ s, P (Event.setTitle s))
    (hcoast : P Event.coastlines) (hgrid : P Event.gridlines)
    (hext : P (Event.setExtent (amin2 env.g0.ny env.g0.nx env.lon)
      (amax2 env.g0.ny env.g0.nx env.lon) (amin2 env.g0.ny env.g0.nx env.lat)
      (amax2 env.g0.ny env.g0.nx env.lat)))
    (hxt : P (Event.setXticks (ticksOf env.g0.ny env.g0.nx env.lon)))
    (hyt : P (Event.setYticks (ticksOf env.g0.ny env.g0.nx env.lat))) :
    ∀ e ∈ (mapAfter Grids a env).1, P e := by
  unfold mapAfter
  refine seq_forall (forall_singleton hmesh)
    (seq_forall (forall_singleton hstream)
    (seq_forall (bgColorbarSeg_forall hcb)
    (seq_forall ?_
    (seq_forall ?_
    (seq_forall ?_
    (seq_forall ?_
    (seq_forall (bcaSection_forall hbca)
    (seq_forall (labelsSeg_forall (hxl _) (hyl _))
    (seq_forall (titleSeg_forall (htl _))
    (seq_forall ?_
    (seq_forall ?_
    ?_)))))))))))
  · intro e he
    rcases hx : a.u_vel_contours with _ | l
    · simp [hx, okSeg] at he
    · simp only [hx] at he
      refine mapVelBranch_forall ?_ ?_ (hcaught _) (hwarn _) hclim hclabel (hcb _) e he
      · intro q qs hl
        subst hl
        exact hmUc q qs hx
      · intro q qs hl
        subst hl
        exact hmUf q qs hx
  · intro e he
    rcases hx : a.v_vel_contours with _ | l
    · simp [hx, okSeg] at he
    · simp only [hx] at he
      refine mapVelBranch_forall ?_ ?_ (hcaught _) (hwarn _) hclim hclabel (hcb _) e he
      · intro q qs hl
        subst hl
        exact hmVc q qs hx
      · intro q qs hl
        subst hl
        exact hmVf q qs hx
  · intro e he
    rcases hx : a.w_vel_contours with _ | l
    · simp [hx, okSeg] at he
    · simp only [hx] at he
      refine mapVelBranch_forall ?_ ?_ (hcaught _) (hwarn _) hclim hclabel (hcb _) e he
      · intro q qs hl
        subst hl
        exact hmWc q qs hx
      · intro q qs hl
        subst hl
        exact hmWf q qs hx
  · intro e he
    rcases hx : a.wind_vel_contours with _ | l
    · simp [hx, okSeg] at he
    · simp only [hx] at he
      exact mapWindBranch_forall (hwindc l hx) (hwindf l hx) (hcaught _) (hwarn _)
        hclabel (hcb _) e he
  · intro e he
    split at he
    all_goals simp [okSeg] at he
    subst he
    exact hcoast
  · intro e he
    split at he
    all_goals simp [okSeg] at he
    subst he
    exact hgrid
  · intro e he
    simp [okSeg] at he
    rcases he with h | h | h
    · subst h; exact hext
    · subst h; exact hxt
    · subst h; exact hyt

/-- A valid trace leaves the catch-warn state machine in its initial state. -/
theorem nbc_state {tr : List Event} (h : noBareCatch tr = true) :
    tr.foldl nbcStep (true, false) = (true, false) := by
  unfold noBareCatch at h
  rcases hr : tr.foldl nbcStep (true, false) with ⟨b1, b2⟩
  rw [hr] at h
  simp at h
  simp [h.1, h.2]

/-- Concatenation of valid traces is valid. -/
theorem nbc_append {t1 t2 : List Event} (h1 : noBareCatch t1 = true)
    (h2 : noBareCatch t2 = true) : noBareCatch (t1 ++ t2) = true := by
  unfold noBareCatch
  rw [List.foldl_append, nbc_state h1]
  exact h2

/-- A non-catch event leaves the state machine alone. -/
theorem nbcStep_nocatch {x : Event} (h : catchOf x = none) :
    nbcStep (true, false) x = (true, false) := by
  cases x <;> simp [nbcStep, catchOf] at h ⊢

/-- A catch-free trace is valid. -/
theorem nbc_of_catchFree : ∀ (tr : List Event), (∀ e ∈ tr, catchOf e = none) →
    noBareCatch tr = true := by
  intro tr
  induction tr with
  | nil => intro _; rfl
  | cons x t ih =>
    intro h
    have hx := h x (by simp)
    unfold noBareCatch
    rw [List.foldl_cons, nbcStep_nocatch hx]
    exact ih fun e he => h e (by simp [he])

/-- A properly warned catch at one of the four map contour sites is valid. -/
theorem nbc_caught_pair {site : CSite} {wmsg : String}
    (hs : site = CSite.mU ∨ site = CSite.mV ∨ site = CSite.mW ∨ site = CSite.mWind)
    (hw : wmsg = blankWarnA ∨ wmsg = blankWarnB) :
    noBareCatch [Event.caught site (PyErr.valueError blankContourMsg),
      Event.warnRuntime wmsg] = true := by
  rcases hs with h | h | h | h <;> subst h <;> rcases hw with h2 | h2 <;> subst h2 <;> decide

/-- Valid traces compose sequentially. -/
theorem nbc_seq {a b : Seg} (ha : noBareCatch a.1 = true) (hb : noBareCatch b.1 = true) :
    noBareCatch (seq a b).1 = true := by
  rcases a with ⟨evs, r⟩
  cases r with
  | error er => exact ha
  | ok u => exact nbc_append ha hb

/-- The only exception a cartopy contour region raises is the blank-contour
ValueError. -/
theorem geoContourSeg_err {filled : Bool} {src : CSite} {x y d : D2} {cm : M2}
    {ny nx : Nat} {lv : Option (List RVal)} {e : PyErr}
    (h : (geoContourSeg filled src x y d cm ny nx lv).2 = Except.error e) :
    e = PyErr.valueError blankContourMsg := by
  unfold geoContourSeg at h
  split at h
  · simp [errSeg] at h
    exact h.symm
  · simp [okSeg] at h

/-- The trace of a try-wrapped region whose body is catch-free and can only
raise the blank-contour ValueError is valid. -/
theorem tryVE_nbc {site : CSite} {wmsg : String} {body : Seg}
    (hb : ∀ e ∈ body.1, catchOf e = none)
    (hs : site = CSite.mU ∨ site = CSite.mV ∨ site = CSite.mW ∨ site = CSite.mWind)
    (hw : wmsg = blankWarnA ∨ wmsg = blankWarnB)
    (hmsg : ∀ m, body.2 = Except.error (PyErr.valueError m) → m = blankContourMsg) :
    noBareCatch (tryVE site wmsg body).1 = true := by
  rcases body with ⟨evs, r⟩
  cases r with
  | ok u => exact nbc_of_catchFree evs hb
  | error er =>
    cases er with
    | valueError m =>
      have hm := hmsg m rfl
      subst hm
      exact nbc_append (nbc_of_catchFree evs hb) (nbc_caught_pair hs hw)
    | keyError k => exact nbc_of_catchFree evs hb
    | indexError => exact nbc_of_catchFree evs hb
    | typeError m2 => exact nbc_of_catchFree evs hb
    | nameError n => exact nbc_of_catchFree evs hb
    | moduleNotFound m2 => exact nbc_of_catchFree evs hb

/-- The trace of a map u/v/w contour block is valid for a map contour site. -/
theorem mapVelBranch_nbc {site : CSite} {filled : Bool} {lon lat sl : D2} {slm : M2}
    {ny nx : Nat} {own : List ℚ} {copt : Option (List ℚ)} {cb : Bool} {lbl wmsg : String}
    (hs : site = CSite.mU ∨ site = CSite.mV ∨ site = CSite.mW ∨ site = CSite.mWind)
    (hw : wmsg = blankWarnA ∨ wmsg = blankWarnB) :
    noBareCatch (mapVelBranch site filled lon lat sl slm ny nx own copt cb lbl wmsg).1 = true := by
  unfold mapVelBranch
  cases own with
  | nil => rfl
  | cons q qs =>
    refine tryVE_nbc ?_ hs hw ?_
    · intro e he
      rcases seq_mem_cases he with h | h
      · exact geoContourSeg_forall (P := fun e => catchOf e = none) rfl rfl e h
      · by_cases hflag : cb = true
        · simp [okSeg, hflag] at h
          rcases h with h2 | h2 | h2 <;> subst h2 <;> rfl
        · simp [okSeg, hflag] at h
          rcases h with h2 | h2 <;> subst h2 <;> rfl
    · intro m hm
      rcases seq_err_cases hm with h | h
      · have h2 := geoContourSeg_err h
        injection h2 with h3
      · simp [okSeg] at h

/-- The trace of the map wind contour block is valid. -/
theorem mapWindBranch_nbc {xS yS velD : D2} {ny nx : Nat} {lvls : List ℚ} {cb : Bool} :
    noBareCatch (mapWindBranch xS yS velD ny nx lvls cb).1 = true := by
  unfold mapWindBranch
  refine tryVE_nbc ?_ (Or.inr (Or.inr (Or.inr rfl))) (Or.inr rfl) ?_
  · intro e he
    rcases seq_mem_cases he with h | h
    · exact geoContourSeg_forall (P := fun e => catchOf e = none) rfl rfl e h
    · by_cases hflag : cb = true
      · simp [okSeg, hflag] at h
        rcases h with h2 | h2 <;> subst h2 <;> rfl
      · simp [okSeg, hflag] at h
        subst h
        rfl
  · intro m hm
    rcases seq_err_cases hm with h | h
    · have h2 := geoContourSeg_err h
      injection h2 with h3
    · simp [okSeg] at h

/-- The whole map-variant body emits a valid trace: every caught exception is
the blank-contour ValueError at one of the four contour sites, immediately
warned. -/
theorem mapAfter_nbc {Grids : List Grid} {a : VisArgs} {env : MEnv} :
    noBareCatch (mapAfter Grids a env).1 = true := by
  unfold mapAfter
  refine nbc_seq (nbc_of_catchFree _ (forall_singleton rfl))
    (nbc_seq (nbc_of_catchFree _ (forall_singleton rfl))
    (nbc_seq (nbc_of_catchFree _ (bgColorbarSeg_forall fun _ => rfl))
    (nbc_seq ?_
    (nbc_seq ?_
    (nbc_seq ?_
    (nbc_seq ?_
    (nbc_seq (nbc_of_catchFree _ (bcaSection_forall fun g1 g2 q1 q2 h1 h2 => ⟨rfl, rfl⟩))
    (nbc_seq (nbc_of_catchFree _ (labelsSeg_forall rfl rfl))
    (nbc_seq (nbc_of_catchFree _ (titleSeg_forall rfl))
    (nbc_seq ?_
    (nbc_seq ?_
    (nbc_of_catchFree _ (by
      intro e he
      simp [okSeg] at he
      rcases he with h | h | h <;> subst h <;> rfl)))))))))))))
  · rcases a.u_vel_contours with _ | l
    · rfl
    · exact mapVelBranch_nbc (Or.inl rfl) (Or.inl rfl)
  · rcases a.v_vel_contours with _ | l
    · rfl
    · exact mapVelBranch_nbc (Or.inr (Or.inl rfl)) (Or.inl rfl)
  · rcases a.w_vel_contours with _ | l
    · rfl
    · exact mapVelBranch_nbc (Or.inr (Or.inr (Or.inl rfl))) (Or.inr rfl)
  · rcases a.wind_vel_contours with _ | l
    · rfl
    · exact mapWindBranch_nbc
  · split
    · rfl
    · rfl
  · split
    · rfl
    · rfl

/-- The three non-map bodies issue no catch event at all. -/
theorem flatAfter_catchFree {Grids : List Grid} {a : VisArgs} {c : FlatCfg}
    (hbca : ∀ e ∈ c.bcaSeg.1, catchOf e = none) :
    ∀ e ∈ (flatAfter Grids a c).1, catchOf e = none :=
  flatAfter_forall rfl rfl (fun _ => rfl) (fun _ _ => rfl) (fun _ _ => rfl) (fun _ _ => rfl)
    (fun _ _ => rfl) (fun _ _ => rfl) rfl hbca rfl rfl rfl rfl rfl

/-- A catch-free trace records no caught site. -/
theorem caughtSites_nil {tr : List Event} (h : ∀ e ∈ tr, catchOf e = none) :
    caughtSites tr = [] := by
  unfold caughtSites
  exact List.filterMap_eq_nil_iff.mpr h

/-- A region never raising a ModuleNotFoundError. -/
def SegNoMNF (s : Seg) : Prop := ∀ e : PyErr, s.2 = Except.error e → e.isMNF = false

/-- Straight-line regions raise nothing. -/
theorem okSeg_noMNF {l : List Event} : SegNoMNF (okSeg l) := by
  intro e h
  simp [okSeg] at h

/-- A raising region whose exception is not a ModuleNotFoundError. -/
theorem errSeg_noMNF {l : List Event} {er : PyErr} (h : er.isMNF = false) :
    SegNoMNF (errSeg l er) := by
  intro e h2
  simp [errSeg] at h2
  rw [← h2]
  exact h

/-- Sequential composition preserves MNF-freedom. -/
theorem seq_noMNF {a b : Seg} (ha : SegNoMNF a) (hb : SegNoMNF b) : SegNoMNF (seq a b) := by
  intro e h
  rcases seq_err_cases h with h2 | h2
  · exact ha e h2
  · exact hb e h2

/-- `seqAll` preserves MNF-freedom. -/
theorem seqAll_noMNF {l : List Seg} (h : ∀ s ∈ l, SegNoMNF s) : SegNoMNF (seqAll l) := by
  intro e he
  rcases seqAll_err_cases he with ⟨s, hs, h2⟩
  exact h s hs e h2

/-- `try ... except ValueError` preserves MNF-freedom. -/
theorem tryVE_noMNF {site : CSite} {wmsg : String} {body : Seg} (hb : SegNoMNF body) :
    SegNoMNF (tryVE site wmsg body) := by
  intro e h
  rcases body with ⟨evs, r⟩
  cases r with
  | ok u => simp [tryVE] at h
  | error er =>
    cases er with
    | valueError m => simp [tryVE] at h
    | keyError k => exact hb e h
    | indexError => exact hb e h
    | typeError m => exact hb e h
    | nameError n => exact hb e h
    | moduleNotFound m => exact hb e h

/-- Cartopy contour regions raise only the blank-contour ValueError. -/
theorem geoContourSeg_noMNF {filled : Bool} {src : CSite} {x y d : D2} {cm : M2}
    {ny nx : Nat} {lv : Option (List RVal)} :
    SegNoMNF (geoContourSeg filled src x y d cm ny nx lv) := by
  intro e h
  rw [geoContourSeg_err h]
  rfl

/-- The wind contour block of the non-map procedures is MNF-free. -/
theorem plainWindBranch_noMNF {src : CSite} {x y velD : D2} {lvls : List ℚ} {cb : Bool} :
    SegNoMNF (plainWindBranch src x y velD lvls cb) := by
  unfold plainWindBranch
  refine seq_noMNF okSeg_noMNF ?_
  cases lvls with
  | nil => exact errSeg_noMNF rfl
  | cons q qs => exact okSeg_noMNF

/-- The map u/v/w contour blocks are MNF-free. -/
theorem mapVelBranch_noMNF {site : CSite} {filled : Bool} {lon lat sl : D2} {slm : M2}
    {ny nx : Nat} {own : List ℚ} {copt : Option (List ℚ)} {cb : Bool} {lbl wmsg : String} :
    SegNoMNF (mapVelBranch site filled lon lat sl slm ny nx own copt cb lbl wmsg) := by
  unfold mapVelBranch
  cases own with
  | nil => exact errSeg_noMNF rfl
  | cons q qs => exact tryVE_noMNF (seq_noMNF geoContourSeg_noMNF okSeg_noMNF)

/-- The map wind contour block is MNF-free. -/
theorem mapWindBranch_noMNF {xS yS velD : D2} {ny nx : Nat} {lvls : List ℚ} {cb : Bool} :
    SegNoMNF (mapWindBranch xS yS velD ny nx lvls cb) :=
  tryVE_noMNF (seq_noMNF geoContourSeg_noMNF okSeg_noMNF)

/-- The main colorbar block is MNF-free. -/
theorem bgColorbarSeg_noMNF {Grids : List Grid} {a : VisArgs} :
    SegNoMNF (bgColorbarSeg Grids a) := by
  unfold bgColorbarSeg
  repeat' split
  all_goals first
    | exact okSeg_noMNF
    | exact errSeg_noMNF rfl

/-- `math.radians` of an attribute raises only a TypeError. -/
theorem attrRadians_err {a : Attr} {e : PyErr} (h : attrRadians a = Except.error e) :
    e = PyErr.typeError "must be a real number, not str" := by
  cases a <;> simp [attrRadians] at h
  exact h.symm

/-- A lobe contour is MNF-free. -/
theorem lobeSeg_noMNF {geo : Bool} {src : CSite} {x y : D2} {ny nx : Nat} {g1 g2 : Grid}
    {bmin bmax : RVal} : SegNoMNF (lobeSeg geo src x y ny nx g1 g2 bmin bmax) := by
  unfold lobeSeg
  split
  · exact geoContourSeg_noMNF
  · exact okSeg_noMNF

/-- The lobes loop is MNF-free. -/
theorem lobesLoop_noMNF {geo : Bool} {src : CSite} {x y : D2} {ny nx : Nat}
    {Grids : List Grid} {bmin bmax : RVal} :
    SegNoMNF (lobesLoop geo src x y ny nx Grids bmin bmax) := by
  unfold lobesLoop
  refine seqAll_noMNF ?_
  intro s hs
  rcases List.mem_filterMap.mp hs with ⟨p, hp, hcond⟩
  split at hcond
  · rcases Option.some.inj hcond with rfl
    exact lobeSeg_noMNF
  · simp at hcond

/-- The bca block is MNF-free. -/
theorem bcaSection_noMNF {geo : Bool} {src : CSite} {uDA : DataArray} {showLobes : Bool}
    {Grids : List Grid} {x y : D2} {ny nx : Nat} :
    SegNoMNF (bcaSection geo src uDA showLobes Grids x y ny nx) := by
  unfold bcaSection
  rcases uDA.attrs "min_bca" with _ | amn
  · exact errSeg_noMNF rfl
  rcases uDA.attrs "max_bca" with _ | amx
  · exact errSeg_noMNF rfl
  rcases hr1 : attrRadians amn with e1 | bmin
  all_goals simp only [hr1]
  · exact errSeg_noMNF (by rw [attrRadians_err hr1]; rfl)
  rcases hr2 : attrRadians amx with e2 | bmax
  all_goals simp only [hr2]
  · exact errSeg_noMNF (by rw [attrRadians_err hr2]; rfl)
  split
  · exact lobesLoop_noMNF
  · exact okSeg_noMNF

/-- The whole map-variant body is MNF-free. -/
theorem mapAfter_noMNF {Grids : List Grid} {a : VisArgs} {env : MEnv} :
    SegNoMNF (mapAfter Grids a env) := by
  unfold mapAfter
  refine seq_noMNF okSeg_noMNF
    (seq_noMNF okSeg_noMNF
    (seq_noMNF bgColorbarSeg_noMNF
    (seq_noMNF ?_
    (seq_noMNF ?_
    (seq_noMNF ?_
    (seq_noMNF ?_
    (seq_noMNF bcaSection_noMNF
    (seq_noMNF ?_
    (seq_noMNF ?_
    (seq_noMNF ?_
    (seq_noMNF ?_
    okSeg_noMNF)))))))))))
  · rcases a.u_vel_contours with _ | l
    · exact okSeg_noMNF
    · exact mapVelBranch_noMNF
  · rcases a.v_vel_contours with _ | l
    · exact okSeg_noMNF
    · exact mapVelBranch_noMNF
  · rcases a.w_vel_contours with _ | l
    · exact okSeg_noMNF
    · exact mapVelBranch_noMNF
  · rcases a.wind_vel_contours with _ | l
    · exact okSeg_noMNF
    · exact mapWindBranch_noMNF
  · unfold labelsSeg
    split
    · exact okSeg_noMNF
    · exact okSeg_noMNF
  · unfold titleSeg
    split
    · exact okSeg_noMNF
    · exact okSeg_noMNF
  · split
    · exact okSeg_noMNF
    · exact okSeg_noMNF
  · split
    · exact okSeg_noMNF
    · exact okSeg_noMNF

/-- Inversion of a successful Option lift. -/
theorem exO_ok {α : Type} {o : Option α} {er : PyErr} {x : α}
    (h : exO o er = Except.ok x) : o = some x := by
  cases o <;> simp [exO] at h
  rw [h]

/-- Inversion of a failed Option lift. -/
theorem exO_err {α : Type} {o : Option α} {er e : PyErr}
    (h : exO o er = Except.error e) : e = er := by
  cases o <;> simp [exO] at h
  exact h.symm

/-- The background comprehension raises only the KeyError of the missing
field. -/
theorem collectBg_err : ∀ (Grids : List Grid) (f : String) (e : PyErr),
    collectBg Grids f = Except.error e → e = PyErr.keyError f := by
  intro Grids
  induction Grids with
  | nil => intro f e h; simp [collectBg] at h
  | cons g t ih =>
    intro f e h
    unfold collectBg at h
    rcases hf : g.fields f with _ | da
    · simp only [hf] at h
      simp at h
      exact h.symm
    · rcases hc : collectBg t f with ec | rest
      · simp only [hf, hc] at h
        simp at h
        rw [← h]
        exact ih f ec hc
      · simp only [hf, hc] at h
        simp at h

/-- The map background selection never raises a ModuleNotFoundError. -/
theorem mapBg_err {Grids : List Grid} {a : VisArgs} {e : PyErr}
    (h : mapBg Grids a = Except.error e) : e.isMNF = false := by
  unfold mapBg at h
  split at h
  · rcases hg : pyIdx Grids a.bg_grid_no with _ | g
    · simp only [hg] at h
      simp at h
      rw [← h]
      rfl
    · rcases hf : g.fields a.background_field with _ | da
      · simp only [hg, hf] at h
        simp at h
        rw [← h]
        rfl
      · simp only [hg, hf] at h
        simp at h
  · rcases hc : collectBg Grids a.background_field with ec | l
    · simp only [hc] at h
      simp at h
      rw [← h, collectBg_err Grids a.background_field ec hc]
      rfl
    · rcases l with _ | ⟨x, xs⟩
      · simp only [hc] at h
        simp at h
        rw [← h]
        rfl
      · simp only [hc] at h
        simp at h

/-- The map prelude never raises a ModuleNotFoundError. -/
theorem mapSetup_err {Grids : List Grid} {a : VisArgs} {e : PyErr}
    (h : mapSetup Grids a = Except.error e) : e.isMNF = false := by
  unfold mapSetup at h
  simp only [bind, Except.bind] at h
  rcases hbg : mapBg Grids a with ebg | bg
  all_goals simp only [hbg] at h
  · simp at h
    rw [← h]
    exact mapBg_err hbg
  rcases h1 : exO (pyIdx Grids 0) PyErr.indexError with e1 | g0
  all_goals simp only [h1] at h
  · simp at h
    rw [← h, exO_err h1]
    rfl
  rcases h2 : exO (g0.fields "point_altitude") (PyErr.keyError "point_altitude") with e2 | hDA
  all_goals simp only [h2] at h
  · simp at h
    rw [← h, exO_err h2]
    rfl
  rcases h3 : exO (g0.fields "point_x") (PyErr.keyError "point_x") with e3 | xDA
  all_goals simp only [h3] at h
  · simp at h
    rw [← h, exO_err h3]
    rfl
  rcases h4 : exO (g0.fields "point_y") (PyErr.keyError "point_y") with e4 | yDA
  all_goals simp only [h4] at h
  · simp at h
    rw [← h, exO_err h4]
    rfl
  rcases h5 : exO (g0.fields a.u_field) (PyErr.keyError a.u_field) with e5 | uDA
  all_goals simp only [h5] at h
  · simp at h
    rw [← h, exO_err h5]
    rfl
  rcases h6 : exO (g0.fields a.v_field) (PyErr.keyError a.v_field) with e6 | vDA
  all_goals simp only [h6] at h
  · simp at h
    rw [← h, exO_err h6]
    rfl
  rcases h7 : exO (g0.fields a.w_field) (PyErr.keyError a.w_field) with e7 | wDA
  all_goals simp only [h7] at h
  · simp at h
    rw [← h, exO_err h7]
    rfl
  simp [pure, Except.pure] at h

/-- Inversion of a successful non-map prelude: where every value the body
uses was read from, and which transformations (division by 1e3 of the
coordinates, NaN-filling of masked winds) were applied. -/
theorem visSetup_ok {Grids : List Grid} {a : VisArgs} {env : Env}
    (h : visSetup Grids a = Except.ok env) :
    pyIdx Grids a.bg_grid_no = some env.gbg ∧
    env.gbg.fields a.background_field = some env.bgDA ∧
    env.grid_bg = env.bgDA.values ∧
    env.vminV = a.vmin.elim env.grid_bg.aminV RVal.fin ∧
    env.vmaxV = a.vmax.elim env.grid_bg.amaxV RVal.fin ∧
    pyIdx Grids 0 = some env.g0 ∧
    (∃ hDA, env.g0.fields "point_altitude" = some hDA ∧ env.grid_h = hDA.values.div1000) ∧
    (∃ xDA, env.g0.fields "point_x" = some xDA ∧ env.grid_x = xDA.values.div1000) ∧
    (∃ yDA, env.g0.fields "point_y" = some yDA ∧ env.grid_y = yDA.values.div1000) ∧
    env.g0.fields a.u_field = some env.uDA ∧
    env.g0.fields a.v_field = some env.vDA ∧
    env.g0.fields a.w_field = some env.wDA ∧
    env.u = fillIfMasked env.uDA.values ∧
    env.v = fillIfMasked env.vDA.values ∧
    env.w = fillIfMasked env.wDA.values := by
  unfold visSetup at h
  simp only [bind, Except.bind] at h
  rcases h1 : exO (pyIdx Grids a.bg_grid_no) PyErr.indexError with e1 | gbg
  all_goals simp only [h1] at h
  · simp at h
  rcases h2 : exO (gbg.fields a.background_field) (PyErr.keyError a.background_field)
    with e2 | bgDA
  all_goals simp only [h2] at h
  · simp at h
  rcases h3 : exO (pyIdx Grids 0) PyErr.indexError with e3 | g0
  all_goals simp only [h3] at h
  · simp at h
  rcases h4 : exO (g0.fields "point_altitude") (PyErr.keyError "point_altitude")
    with e4 | hDA
  all_goals simp only [h4] at h
  · simp at h
  rcases h5 : exO (g0.fields "point_x") (PyErr.keyError "point_x") with e5 | xDA
  all_goals simp only [h5] at h
  · simp at h
  rcases h6 : exO (g0.fields "point_y") (PyErr.keyError "point_y") with e6 | yDA
  all_goals simp only [h6] at h
  · simp at h
  rcases h7 : exO (g0.fields a.u_field) (PyErr.keyError a.u_field) with e7 | uDA
  all_goals simp only [h7] at h
  · simp at h
  rcases h8 : exO (g0.fields a.v_field) (PyErr.keyError a.v_field) with e8 | vDA
  all_goals simp only [h8] at h
  · simp at h
  rcases h9 : exO (g0.fields a.w_field) (PyErr.keyError a.w_field) with e9 | wDA
  all_goals simp only [h9] at h
  · simp at h
  simp only [pure, Except.pure, Except.ok.injEq] at h
  subst h
  refine ⟨exO_ok h1, exO_ok h2, rfl, rfl, rfl, exO_ok h3,
    ⟨hDA, exO_ok h4, rfl⟩, ⟨xDA, exO_ok h5, rfl⟩, ⟨yDA, exO_ok h6, rfl⟩,
    exO_ok h7, exO_ok h8, exO_ok h9, rfl, rfl, rfl⟩

/-- Inversion of a successful map prelude. -/
theorem mapSetup_ok {Grids : List Grid} {a : VisArgs} {env : MEnv}
    (h : mapSetup Grids a = Except.ok env) :
    mapBg Grids a = Except.ok env.grid_bg ∧
    env.vminV = a.vmin.elim env.grid_bg.aminV RVal.fin ∧
    env.vmaxV = a.vmax.elim env.grid_bg.amaxV RVal.fin ∧
    pyIdx Grids 0 = some env.g0 ∧
    (∃ hDA, env.g0.fields "point_altitude" = some hDA ∧ env.grid_h = hDA.values.div1000) ∧
    (∃ xDA, env.g0.fields "point_x" = some xDA ∧ env.grid_x = xDA.values.div1000) ∧
    (∃ yDA, env.g0.fields "point_y" = some yDA ∧ env.grid_y = yDA.values.div1000) ∧
    env.lat = (fun i j => env.g0.pointLatitude a.level i j) ∧
    env.lon = (fun i j => env.g0.pointLongitude a.level i j) ∧
    env.g0.fields a.u_field = some env.uDA ∧
    env.g0.fields a.v_field = some env.vDA ∧
    env.g0.fields a.w_field = some env.wDA ∧
    env.u = fillIfMasked env.uDA.values ∧
    env.v = fillIfMasked env.vDA.values ∧
    env.w = fillIfMasked env.wDA.values := by
  unfold mapSetup at h
  simp only [bind, Except.bind] at h
  rcases h0 : mapBg Grids a with e0 | bg
  all_goals simp only [h0] at h
  · simp at h
  rcases h3 : exO (pyIdx Grids 0) PyErr.indexError with e3 | g0
  all_goals simp only [h3] at h
  · simp at h
  rcases h4 : exO (g0.fields "point_altitude") (PyErr.keyError "point_altitude")
    with e4 | hDA
  all_goals simp only [h4] at h
  · simp at h
  rcases h5 : exO (g0.fields "point_x") (PyErr.keyError "point_x") with e5 | xDA
  all_goals simp only [h5] at h
  · simp at h
  rcases h6 : exO (g0.fields "point_y") (PyErr.keyError "point_y") with e6 | yDA
  all_goals simp only [h6] at h
  · simp at h
  rcases h7 : exO (g0.fields a.u_field) (PyErr.keyError a.u_field) with e7 | uDA
  all_goals simp only [h7] at h
  · simp at h
  rcases h8 : exO (g0.fields a.v_field) (PyErr.keyError a.v_field) with e8 | vDA
  all_goals simp only [h8] at h
  · simp at h
  rcases h9 : exO (g0.fields a.w_field) (PyErr.keyError a.w_field) with e9 | wDA
  all_goals simp only [h9] at h
  · simp at h
  simp only [pure, Except.pure, Except.ok.injEq] at h
  subst h
  refine ⟨rfl, rfl, rfl, exO_ok h3,
    ⟨hDA, exO_ok h4, rfl⟩, ⟨xDA, exO_ok h5, rfl⟩, ⟨yDA, exO_ok h6, rfl⟩,
    rfl, rfl, exO_ok h7, exO_ok h8, exO_ok h9, rfl, rfl, rfl⟩

/-- A 1x1x1 plain constant test array. -/
def plainArr (q : ℚ) : NpArr :=
  { nz := 1, ny := 1, nx := 1, dat := fun _ _ _ => .fin q,
    mask := fun _ _ _ => false, isMa := false }

/-- A 1x1x1 fully masked test array. -/
def maskedArr (q : ℚ) : NpArr :=
  { nz := 1, ny := 1, nx := 1, dat := fun _ _ _ => .fin q,
    mask := fun _ _ _ => true, isMa := true }

/-- Attribute dictionary of the test fields. -/
def testAttrs : String → Option Attr := fun s =>
  if s = "long_name" then some (.str "reflectivity")
  else if s = "units" then some (.str "dBZ")
  else if s = "min_bca" then some (.num 20)
  else if s = "max_bca" then some (.num 160)
  else none

/-- A plain test field. -/
def testDA : DataArray := { values := plainArr 1, attrs := testAttrs }

/-- A fully masked test field. -/
def maskedDA (q : ℚ) : DataArray := { values := maskedArr q, attrs := testAttrs }

/-- Field dictionary of an unmasked test grid. -/
def testFields : String → Option DataArray := fun s =>
  if s = "reflectivity" then some testDA
  else if s = "u" then some testDA
  else if s = "v" then some testDA
  else if s = "w" then some testDA
  else if s = "point_altitude" then some testDA
  else if s = "point_x" then some testDA
  else if s = "point_y" then some testDA
  else none

/-- An unmasked 1x1x1 test grid. -/
def testGrid : Grid :=
  { gid := 0, nz := 1, ny := 1, nx := 1, fields := testFields,
    pointLatitude := fun _ _ _ => .fin 10, pointLongitude := fun _ _ _ => .fin 20 }

/-- The background field of the second test grid. -/
def testDA7 : DataArray := { values := plainArr 7, attrs := testAttrs }

/-- A second test grid (distinct identity and background values). -/
def testGrid2 : Grid :=
  { gid := 1, nz := 1, ny := 1, nx := 1,
    fields := fun s => if s = "reflectivity" then some testDA7 else testFields s,
    pointLatitude := fun _ _ _ => .fin 11, pointLongitude := fun _ _ _ => .fin 21 }

/-- Field dictionary whose wind fields are fully masked: their NaN-filled
slices are all-NaN, so every map contour block draws a blank contour. -/
def blankFields : String → Option DataArray := fun s =>
  if s = "reflectivity" then some testDA
  else if s = "u" then some (maskedDA 0)
  else if s = "v" then some (maskedDA 0)
  else if s = "w" then some (maskedDA 0)
  else if s = "point_altitude" then some testDA
  else if s = "point_x" then some testDA
  else if s = "point_y" then some testDA
  else none

/-- A test grid with fully masked winds. -/
def blankGrid : Grid :=
  { gid := 0, nz := 1, ny := 1, nx := 1, fields := blankFields,
    pointLatitude := fun _ _ _ => .fin 10, pointLongitude := fun _ _ _ => .fin 20 }

/-- Arguments with every optional display feature off (fixed color limits,
no contour overlays, no lobes, no decorations). -/
def quietArgs : VisArgs :=
  { background_field := "reflectivity", level := 0, vmin := some 0, vmax := some 10,
    u_vel_contours := none, v_vel_contours := none, w_vel_contours := none,
    wind_vel_contours := none, u_field := "u", v_field := "v", w_field := "w",
    show_lobes := false, title_flag := false, axes_labels_flag := false,
    colorbar_flag := false, colorbar_contour_flag := false, bg_grid_no := 0,
    coastlines := false, gridlines := false }

/-- The module state after a successful import. -/
def msOk : ModState := { cartopyAvailable := true, pcolormeshPatched := true }

/-- Test arguments asking for u and v contour overlays. -/
def argsUV : VisArgs :=
  { quietArgs with u_vel_contours := some [10], v_vel_contours := some [10] }

/-- Test arguments asking for all four contour overlays. -/
def argsAll : VisArgs :=
  { quietArgs with
    u_vel_contours := some [10]
    v_vel_contours := some [10]
    w_vel_contours := some [10]
    wind_vel_contours := some [10] }

/-- C1 counterexample: one call of `plot_horiz_xsection_streamlines_map`
whose u and v winds are fully masked catches and warns at two distinct
places — the u contour block and the v contour block — so it is false that
there is exactly one place across the four plotting functions where an
exception raised during plotting is caught. -/
theorem catch_sites_not_unique :
    caughtSites ((plot_horiz_xsection_streamlines_map msOk [blankGrid] argsUV).2.2.1) =
      [CSite.mU, CSite.mV] ∧ CSite.mU ≠ CSite.mV := by
  constructor
  · decide
  · decide

/-- C1 amended: the failure recovery of the plotting layer consists of exactly
the four `except ValueError` handlers in the u/v/w/wind contour blocks of the
map variant: the three non-map procedures catch nothing on any input; in
the map variant every caught exception is the blank-contour ValueError at
one of those four sites and its handler only issues a RuntimeWarning and
continues; and a single concrete call reaches all four catch sites. -/
theorem catch_sites_amended :
    (∀ (Grids : List Grid) (a : VisArgs),
      caughtSites (plot_horiz_xsection_streamlines Grids a).2.1 = [] ∧
      caughtSites (plot_xz_xsection_streamlines Grids a).2.1 = [] ∧
      caughtSites (plot_yz_xsection_streamlines Grids a).2.1 = []) ∧
    (∀ (ms : ModState) (Grids : List Grid) (a : VisArgs),
      noBareCatch (plot_horiz_xsection_streamlines_map ms Grids a).2.2.1 = true) ∧
    caughtSites ((plot_horiz_xsection_streamlines_map msOk [blankGrid] argsAll).2.2.1) =
      [CSite.mU, CSite.mV, CSite.mW, CSite.mWind] := by
  refine ⟨?_, ?_, by decide⟩
  · intro Grids a
    refine ⟨?_, ?_, ?_⟩
    · unfold plot_horiz_xsection_streamlines
      rcases hs : visSetup Grids a with e | env
      · simp only [hs]
        rfl
      · simp only [hs]
        exact caughtSites_nil (flatAfter_catchFree
          (bcaSection_forall fun _ _ _ _ _ _ => ⟨rfl, rfl⟩))
    · unfold plot_xz_xsection_streamlines
      rcases hs : visSetup Grids a with e | env
      · simp only [hs]
        rfl
      · simp only [hs]
        exact caughtSites_nil (flatAfter_catchFree (by intro e he; simp [xzCfg, okSeg] at he))
    · unfold plot_yz_xsection_streamlines
      rcases hs : visSetup Grids a with e | env
      · simp only [hs]
        rfl
      · simp only [hs]
        exact caughtSites_nil (flatAfter_catchFree (by intro e he; simp [yzCfg, okSeg] at he))
  · intro ms Grids a
    unfold plot_horiz_xsection_streamlines_map
    by_cases hav : ms.cartopyAvailable = true
    · simp only [hav, if_true]
      rcases hs : mapSetup Grids a with e | env
      · simp only [hs]
        rfl
      · simp only [hs]
        exact mapAfter_nbc
    · simp only [Bool.not_eq_true] at hav
      simp only [hav]
      rfl

/-- C3: calling any of the four plotting procedures creates or mutates no
persistent state: the grid list — and with it every field and attribute of
every grid — and the module-level state are returned exactly as they were
passed in; all drawing effects are confined to the emitted figure trace
(masked winds are replaced through `fillIfMasked`, which builds a fresh
array rather than writing to the field of the grid). -/
theorem plot_functions_frame :
    ∀ (Grids : List Grid) (a : VisArgs) (ms : ModState),
      (plot_horiz_xsection_streamlines Grids a).1 = Grids ∧
      (plot_xz_xsection_streamlines Grids a).1 = Grids ∧
      (plot_yz_xsection_streamlines Grids a).1 = Grids ∧
      (plot_horiz_xsection_streamlines_map ms Grids a).1 = ms ∧
      (plot_horiz_xsection_streamlines_map ms Grids a).2.1 = Grids :=
  fun _ _ _ => ⟨rfl, rfl, rfl, rfl, rfl⟩

/-- C8: a failed geoaxes import makes the module itself fail to load (the
unconditional `GeoAxes._pcolormesh_patched = Axes.pcolormesh` line raises a
NameError outside the try/except), every successfully loaded module state has
`CARTOPY_AVAILABLE` true, and the ModuleNotFoundError branch of
`plot_horiz_xsection_streamlines_map` is reachable only from a module state
with `CARTOPY_AVAILABLE` false — hence unreachable after a successful import. -/
theorem cartopy_guard_unreachable :
    moduleInit false = Except.error (PyErr.nameError "GeoAxes") ∧
    (∀ (b : Bool) (ms : ModState), moduleInit b = Except.ok ms →
      ms.cartopyAvailable = true) ∧
    (∀ (ms : ModState) (Grids : List Grid) (a : VisArgs) (m : String),
      (plot_horiz_xsection_streamlines_map ms Grids a).2.2.2 =
        Except.error (PyErr.moduleNotFound m) → ms.cartopyAvailable = false) := by
  refine ⟨rfl, ?_, ?_⟩
  · intro b ms h
    cases b
    · simp [moduleInit] at h
    · simp [moduleInit] at h
      rw [← h]
  · intro ms Grids a m h
    by_cases hav : ms.cartopyAvailable = true
    · exfalso
      unfold plot_horiz_xsection_streamlines_map at h
      simp only [hav, if_true] at h
      rcases hsetup : mapSetup Grids a with e2 | env
      · simp only [hsetup] at h
        simp [errSeg] at h
        have h2 := mapSetup_err hsetup
        rw [h] at h2
        simp [PyErr.isMNF] at h2
      · simp only [hsetup] at h
        have h2 := mapAfter_noMNF (PyErr.moduleNotFound m) h
        simp [PyErr.isMNF] at h2
    · simp only [Bool.not_eq_true] at hav
      exact hav

/-- C8 witness: a successful import yields a state with cartopy available. -/
theorem cartopy_guard_unreachable_witness :
    moduleInit true = Except.ok msOk ∧ msOk.cartopyAvailable = true :=
  ⟨rfl, cartopy_guard_unreachable.2.1 true msOk rfl⟩

/-- C7: the Hurricane Florence example script is glue code in a fixed order —
Herbie HRRR download first, then reading the two sample grids, attaching the
HRRR constraint and constant initial wind to the first, one retrieval call
over both grids with the HRRR model field, and exactly one call into the
visualization layer, receiving the retrieval output itself untransformed;
the remaining statements are figure decoration. -/
theorem florence_script_glue :
    florenceScript.filter isVisCall =
      [ScriptEv.visPlotBarbsMap (SVal.ddOutput
        (SVal.withConstWind (SVal.withHrrr (SVal.gridOf (SVal.sampleFile "grid_mhx.nc"))
          (SVal.hrrrData "2018-09-14 06:00")) 0 0 0)
        (SVal.gridOf (SVal.sampleFile "grid_ltx.nc"))) (-1) 3] ∧
    florenceScript =
      [ScriptEv.herbieInit "2018-09-14 06:00" "hrrr" "prs" 0] ++
      [ScriptEv.herbieDownload (SVal.hrrrData "2018-09-14 06:00")] ++
      [ScriptEv.getSampleFile "grid_mhx.nc", ScriptEv.getSampleFile "grid_ltx.nc",
       ScriptEv.readGrid (SVal.sampleFile "grid_mhx.nc"),
       ScriptEv.readGrid (SVal.sampleFile "grid_ltx.nc"),
       ScriptEv.addHrrrConstraint (SVal.gridOf (SVal.sampleFile "grid_mhx.nc"))
         (SVal.hrrrData "2018-09-14 06:00"),
       ScriptEv.makeConstantWindField (SVal.withHrrr
         (SVal.gridOf (SVal.sampleFile "grid_mhx.nc")) (SVal.hrrrData "2018-09-14 06:00"))
         0 0 0] ++
      [ScriptEv.getDdWindField
        (SVal.withConstWind (SVal.withHrrr (SVal.gridOf (SVal.sampleFile "grid_mhx.nc"))
          (SVal.hrrrData "2018-09-14 06:00")) 0 0 0)
        (SVal.gridOf (SVal.sampleFile "grid_ltx.nc")) "scipy" ["hrrr"]] ++
      [ScriptEv.figure, ScriptEv.axesPlateCarree] ++
      [ScriptEv.visPlotBarbsMap (SVal.ddOutput
        (SVal.withConstWind (SVal.withHrrr (SVal.gridOf (SVal.sampleFile "grid_mhx.nc"))
          (SVal.hrrrData "2018-09-14 06:00")) 0 0 0)
        (SVal.gridOf (SVal.sampleFile "grid_ltx.nc"))) (-1) 3] ++
      [ScriptEv.setXticksS, ScriptEv.setYticksS, ScriptEv.titleS, ScriptEv.showS] := by
  constructor
  · decide
  · decide

/-- C4: each cross-section procedure hands the mesh and streamline calls the
2-D slice of the 3-D fields selected by `level` along the correct axis:
`[level, :, :]` with u/v streamline components for the horizontal section,
`[:, level, :]` with u/w against altitude for the x-z section,
`[:, :, level]` with v/w against altitude for the y-z section, and the same
`[level, :, :]` horizontal slice on the longitude/latitude coordinates for
the map variant. -/
theorem xsection_slice_selection :
    (∀ (Grids : List Grid) (a : VisArgs) (env : Env),
      visSetup Grids a = Except.ok env →
      Event.pcolormesh CSite.hMesh (fun i j => env.grid_x.dat a.level i j)
        (fun i j => env.grid_y.dat a.level i j) (fun i j => env.grid_bg.dat a.level i j)
        (NpArr.sm0 env.grid_bg a.level) env.vminV env.vmaxV
        ∈ (plot_horiz_xsection_streamlines Grids a).2.1 ∧
      Event.streamplot CSite.hStream (fun i j => env.grid_x.dat a.level i j)
        (fun i j => env.grid_y.dat a.level i j) (fun i j => env.u.dat a.level i j)
        (fun i j => env.v.dat a.level i j)
        ∈ (plot_horiz_xsection_streamlines Grids a).2.1) ∧
    (∀ (Grids : List Grid) (a : VisArgs) (env : Env),
      visSetup Grids a = Except.ok env →
      Event.pcolormesh CSite.xzMesh (fun i k => env.grid_x.dat i a.level k)
        (fun i k => env.grid_h.dat i a.level k) (fun i k => env.grid_bg.dat i a.level k)
        (NpArr.sm1 env.grid_bg a.level) env.vminV env.vmaxV
        ∈ (plot_xz_xsection_streamlines Grids a).2.1 ∧
      Event.streamplot CSite.xzStream (fun i k => env.grid_x.dat i a.level k)
        (fun i k => env.grid_h.dat i a.level k) (fun i k => env.u.dat i a.level k)
        (fun i k => env.w.dat i a.level k)
        ∈ (plot_xz_xsection_streamlines Grids a).2.1) ∧
    (∀ (Grids : List Grid) (a : VisArgs) (env : Env),
      visSetup Grids a = Except.ok env →
      Event.pcolormesh CSite.yzMesh (fun i j => env.grid_y.dat i j a.level)
        (fun i j => env.grid_h.dat i j a.level) (fun i j => env.grid_bg.dat i j a.level)
        (NpArr.sm2 env.grid_bg a.level) env.vminV env.vmaxV
        ∈ (plot_yz_xsection_streamlines Grids a).2.1 ∧
      Event.streamplot CSite.yzStream (fun i j => env.grid_y.dat i j a.level)
        (fun i j => env.grid_h.dat i j a.level) (fun i j => env.v.dat i j a.level)
        (fun i j => env.w.dat i j a.level)
        ∈ (plot_yz_xsection_streamlines Grids a).2.1) ∧
    (∀ (ms : ModState) (Grids : List Grid) (a : VisArgs) (env : MEnv),
      ms.cartopyAvailable = true → mapSetup Grids a = Except.ok env →
      Event.pcolormesh CSite.mMesh env.lon env.lat (fun i j => env.grid_bg.dat a.level i j)
        (NpArr.sm0 env.grid_bg a.level) env.vminV env.vmaxV
        ∈ (plot_horiz_xsection_streamlines_map ms Grids a).2.2.1 ∧
      Event.streamplot CSite.mStream env.lon env.lat (fun i j => env.u.dat a.level i j)
        (fun i j => env.v.dat a.level i j)
        ∈ (plot_horiz_xsection_streamlines_map ms Grids a).2.2.1) := by
  refine ⟨?_, ?_, ?_, ?_⟩
  · intro Grids a env hs
    unfold plot_horiz_xsection_streamlines
    simp only [hs]
    unfold flatAfter
    constructor
    · exact seq_mem_left _ (List.mem_singleton_self _)
    · exact seq_mem_right rfl (seq_mem_left _ (List.mem_singleton_self _))
  · intro Grids a env hs
    unfold plot_xz_xsection_streamlines
    simp only [hs]
    unfold flatAfter
    constructor
    · exact seq_mem_left _ (List.mem_singleton_self _)
    · exact seq_mem_right rfl (seq_mem_left _ (List.mem_singleton_self _))
  · intro Grids a env hs
    unfold plot_yz_xsection_streamlines
    simp only [hs]
    unfold flatAfter
    constructor
    · exact seq_mem_left _ (List.mem_singleton_self _)
    · exact seq_mem_right rfl (seq_mem_left _ (List.mem_singleton_self _))
  · intro ms Grids a env hav hs
    unfold plot_horiz_xsection_streamlines_map
    simp only [hav, if_true, hs]
    unfold mapAfter
    constructor
    · exact seq_mem_left _ (List.mem_singleton_self _)
    · exact seq_mem_right rfl (seq_mem_left _ (List.mem_singleton_self _))

/-- The environment the non-map prelude computes on the one-cell test grid. -/
def envT : Env :=
  match visSetup [testGrid] quietArgs with
  | Except.ok e => e
  | Except.error _ => default

/-- The environment the map prelude computes on the one-cell test grid. -/
def menvT : MEnv :=
  match mapSetup [testGrid] quietArgs with
  | Except.ok e => e
  | Except.error _ => default

/-- C4 witness: the slice memberships hold at a concrete one-cell grid. -/
theorem xsection_slice_selection_witness :
    visSetup [testGrid] quietArgs = Except.ok envT ∧
    mapSetup [testGrid] quietArgs = Except.ok menvT ∧
    msOk.cartopyAvailable = true ∧
    (Event.pcolormesh CSite.hMesh (fun i j => envT.grid_x.dat quietArgs.level i j)
      (fun i j => envT.grid_y.dat quietArgs.level i j)
      (fun i j => envT.grid_bg.dat quietArgs.level i j)
      (NpArr.sm0 envT.grid_bg quietArgs.level) envT.vminV envT.vmaxV
      ∈ (plot_horiz_xsection_streamlines [testGrid] quietArgs).2.1) ∧
    (Event.pcolormesh CSite.mMesh menvT.lon menvT.lat
      (fun i j => menvT.grid_bg.dat quietArgs.level i j)
      (NpArr.sm0 menvT.grid_bg quietArgs.level) menvT.vminV menvT.vmaxV
      ∈ (plot_horiz_xsection_streamlines_map msOk [testGrid] quietArgs).2.2.1) := by
  refine ⟨rfl, rfl, rfl, ?_, ?_⟩
  · exact (xsection_slice_selection.1 [testGrid] quietArgs envT rfl).1
  · exact (xsection_slice_selection.2.2.2 msOk [testGrid] quietArgs menvT rfl rfl).1

/-- C5: for every plotting procedure and each wind component read from the
grids: a masked component array is replaced, before any plotting call, by an
array holding NaN at every masked entry and the original value at every
unmasked entry (and no longer masked); a plain component array is passed
through unchanged; and the prelude of all four procedures applies exactly
this replacement to the three wind components. -/
theorem masked_fill_semantics :
    (∀ na : NpArr,
      (na.isMa = true → (fillIfMasked na).isMa = false ∧
        ∀ i j k, (fillIfMasked na).dat i j k =
          (if na.mask i j k then RVal.nan else na.dat i j k)) ∧
      (na.isMa = false → fillIfMasked na = na)) ∧
    (∀ (Grids : List Grid) (a : VisArgs) (env : Env),
      visSetup Grids a = Except.ok env →
      env.u = fillIfMasked env.uDA.values ∧ env.v = fillIfMasked env.vDA.values ∧
      env.w = fillIfMasked env.wDA.values) ∧
    (∀ (Grids : List Grid) (a : VisArgs) (env : MEnv),
      mapSetup Grids a = Except.ok env →
      env.u = fillIfMasked env.uDA.values ∧ env.v = fillIfMasked env.vDA.values ∧
      env.w = fillIfMasked env.wDA.values) := by
  refine ⟨?_, ?_, ?_⟩
  · intro na
    constructor
    · intro h
      refine ⟨by simp [fillIfMasked, h], ?_⟩
      intro i j k
      simp [fillIfMasked, h]
    · intro h
      simp [fillIfMasked, h]
  · intro Grids a env hs
    obtain ⟨_, _, _, _, _, _, _, _, _, _, _, _, hu, hv, hw⟩ := visSetup_ok hs
    exact ⟨hu, hv, hw⟩
  · intro Grids a env hs
    obtain ⟨_, _, _, _, _, _, _, _, _, _, _, _, hu, hv, hw⟩ := mapSetup_ok hs
    exact ⟨hu, hv, hw⟩

/-- C5 witness: the fill semantics and the prelude equations at a concrete
masked array and a concrete grid. -/
theorem masked_fill_semantics_witness :
    (maskedArr 2).isMa = true ∧
    ((fillIfMasked (maskedArr 2)).isMa = false ∧
      ∀ i j k, (fillIfMasked (maskedArr 2)).dat i j k =
        (if (maskedArr 2).mask i j k then RVal.nan else (maskedArr 2).dat i j k)) ∧
    visSetup [testGrid] quietArgs = Except.ok envT ∧
    (envT.u = fillIfMasked envT.uDA.values ∧ envT.v = fillIfMasked envT.vDA.values ∧
      envT.w = fillIfMasked envT.wDA.values) :=
  ⟨rfl, (masked_fill_semantics.1 (maskedArr 2)).1 rfl, rfl,
    masked_fill_semantics.2.1 [testGrid] quietArgs envT rfl⟩

/-- C6: in all four procedures the wind components are read — not computed —
from Grids[0] under the names given by u_field, v_field and w_field,
independently of bg_grid_no; only the background field is taken from the
grid selection that bg_grid_no controls. -/
theorem winds_read_from_first_grid :
    (∀ (Grids : List Grid) (a : VisArgs) (env : Env),
      visSetup Grids a = Except.ok env →
      pyIdx Grids 0 = some env.g0 ∧
      env.g0.fields a.u_field = some env.uDA ∧ env.u = fillIfMasked env.uDA.values ∧
      env.g0.fields a.v_field = some env.vDA ∧ env.v = fillIfMasked env.vDA.values ∧
      env.g0.fields a.w_field = some env.wDA ∧ env.w = fillIfMasked env.wDA.values ∧
      ∃ gb, pyIdx Grids a.bg_grid_no = some gb ∧
        gb.fields a.background_field = some env.bgDA ∧ env.grid_bg = env.bgDA.values) ∧
    (∀ (Grids : List Grid) (a : VisArgs) (env : MEnv),
      mapSetup Grids a = Except.ok env →
      pyIdx Grids 0 = some env.g0 ∧
      env.g0.fields a.u_field = some env.uDA ∧ env.u = fillIfMasked env.uDA.values ∧
      env.g0.fields a.v_field = some env.vDA ∧ env.v = fillIfMasked env.vDA.values ∧
      env.g0.fields a.w_field = some env.wDA ∧ env.w = fillIfMasked env.wDA.values ∧
      mapBg Grids a = Except.ok env.grid_bg) ∧
    (∀ (Grids : List Grid) (a : VisArgs) (b2 : Int) (env1 env2 : Env),
      visSetup Grids a = Except.ok env1 →
      visSetup Grids { a with bg_grid_no := b2 } = Except.ok env2 →
      env1.u = env2.u ∧ env1.v = env2.v ∧ env1.w = env2.w) := by
  refine ⟨?_, ?_, ?_⟩
  · intro Grids a env hs
    obtain ⟨hbg, hbf, hgb, _, _, hg0, _, _, _, hfu, hfv, hfw, hu, hv, hw⟩ := visSetup_ok hs
    exact ⟨hg0, hfu, hu, hfv, hv, hfw, hw, env.gbg, hbg, hbf, hgb⟩
  · intro Grids a env hs
    obtain ⟨hbg, _, _, hg0, _, _, _, _, _, hfu, hfv, hfw, hu, hv, hw⟩ := mapSetup_ok hs
    exact ⟨hg0, hfu, hu, hfv, hv, hfw, hw, hbg⟩
  · intro Grids a b2 env1 env2 hs1 hs2
    obtain ⟨_, _, _, _, _, hg1, _, _, _, hfu1, hfv1, hfw1, hu1, hv1, hw1⟩ := visSetup_ok hs1
    obtain ⟨_, _, _, _, _, hg2, _, _, _, hfu2, hfv2, hfw2, hu2, hv2, hw2⟩ := visSetup_ok hs2
    have hg : env1.g0 = env2.g0 := Option.some.inj (hg1.symm.trans hg2)
    have h2u : env2.g0.fields a.u_field = some env2.uDA := hfu2
    have h2v : env2.g0.fields a.v_field = some env2.vDA := hfv2
    have h2w : env2.g0.fields a.w_field = some env2.wDA := hfw2
    rw [← hg] at h2u h2v h2w
    have hdu : env1.uDA = env2.uDA := Option.some.inj (hfu1.symm.trans h2u)
    have hdv : env1.vDA = env2.vDA := Option.some.inj (hfv1.symm.trans h2v)
    have hdw : env1.wDA = env2.wDA := Option.some.inj (hfw1.symm.trans h2w)
    refine ⟨?_, ?_, ?_⟩
    · rw [hu1, hu2, hdu]
    · rw [hv1, hv2, hdv]
    · rw [hw1, hw2, hdw]

/-- C6 witness: the prelude equations at a concrete two-grid list, with the
background grid number pointing at the second grid. -/
theorem winds_read_from_first_grid_witness :
    visSetup [testGrid, testGrid2] { quietArgs with bg_grid_no := 1 } =
      Except.ok (match visSetup [testGrid, testGrid2] { quietArgs with bg_grid_no := 1 } with
        | Except.ok e => e
        | Except.error _ => default) ∧
    pyIdx [testGrid, testGrid2] 0 =
      some (match visSetup [testGrid, testGrid2] { quietArgs with bg_grid_no := 1 } with
        | Except.ok e => e
        | Except.error _ => default).g0 :=
  ⟨rfl, (winds_read_from_first_grid.1 [testGrid, testGrid2]
    { quietArgs with bg_grid_no := 1 } _ rfl).1⟩

/-- Python index -1 is the last element. -/
theorem pyIdx_neg_one (l : List Grid) : pyIdx l (-1) = l.getLast? := by
  unfold pyIdx
  have h1 : ((-1 : Int) < 0) := by norm_num
  simp only [if_pos h1]
  cases l with
  | nil => simp
  | cons g t =>
    have h2 : ((g :: t).length : Int) + (-1) = (t.length : Int) := by
      simp [List.length_cons]
    rw [h2, if_pos (Int.natCast_nonneg t.length), Int.toNat_natCast,
      List.getLast?_eq_getElem?, List.get?_eq_getElem?]
    simp [List.length_cons]

/-- On unmasked arrays the stacked-max cell comprehension keeps every value. -/
theorem filterMap_unmasked : ∀ (l : List NpArr) (i j k : Nat),
    (∀ n ∈ l, n.isMa = false) →
    l.filterMap (fun n => if n.isMa && n.mask i j k then none else some (n.dat i j k)) =
    l.map (fun n => n.dat i j k) := by
  intro l i j k
  induction l with
  | nil => intro _; rfl
  | cons n t ih =>
    intro h
    have hn := h n (by simp)
    have ht := ih fun m hm => h m (by simp [hm])
    simp only [Bool.and_eq_true] at ht
    simp [List.filterMap_cons, hn, ht]

/-- C10: with bg_grid_no = -1 the non-map procedures take the background
from the last grid via Python negative indexing, while only the map variant
(whose guard tests bg_grid_no > -1) builds the elementwise maximum of the
background field over all grids. -/
theorem bg_grid_no_negative_one :
    (∀ (Grids : List Grid) (a : VisArgs) (env : Env),
      a.bg_grid_no = -1 → visSetup Grids a = Except.ok env →
      ∃ gl, Grids.getLast? = some gl ∧ gl.fields a.background_field = some env.bgDA ∧
        env.grid_bg = env.bgDA.values) ∧
    (∀ (Grids : List Grid) (a : VisArgs) (env : MEnv),
      a.bg_grid_no = -1 → mapSetup Grids a = Except.ok env →
      ∃ x xs, collectBg Grids a.background_field = Except.ok (x :: xs) ∧
        env.grid_bg = maStackMax x xs) ∧
    (∀ (x : NpArr) (xs : List NpArr) (i j k : Nat),
      (∀ n ∈ x :: xs, n.isMa = false) →
      (maStackMax x xs).dat i j k =
        (xs.map fun n => n.dat i j k).foldl rmax (x.dat i j k)) := by
  refine ⟨?_, ?_, ?_⟩
  · intro Grids a env hneg hs
    obtain ⟨hbg, hbf, hgb, _⟩ := visSetup_ok hs
    rw [hneg, pyIdx_neg_one] at hbg
    exact ⟨env.gbg, hbg, hbf, hgb⟩
  · intro Grids a env hneg hs
    obtain ⟨hbg, _⟩ := mapSetup_ok hs
    unfold mapBg at hbg
    rw [hneg] at hbg
    simp only [show ¬((-1 : Int) < -1) from by norm_num, if_false] at hbg
    rcases hc : collectBg Grids a.background_field with e | l
    · simp only [hc] at hbg
      simp at hbg
    · simp only [hc] at hbg
      rcases l with _ | ⟨x, xs⟩
      · simp at hbg
      · simp at hbg
        exact ⟨x, xs, rfl, hbg.symm⟩
  · intro x xs i j k h
    show (cellMax (x :: xs) i j k).1 = _
    unfold cellMax
    rw [filterMap_unmasked (x :: xs) i j k h]
    simp

/-- C10 witness: with two test grids and bg_grid_no = -1, the non-map
prelude picks the background of the second (last) grid. -/
theorem bg_grid_no_negative_one_witness :
    ({ quietArgs with bg_grid_no := -1 } : VisArgs).bg_grid_no = -1 ∧
    visSetup [testGrid, testGrid2] { quietArgs with bg_grid_no := -1 } =
      Except.ok (match visSetup [testGrid, testGrid2] { quietArgs with bg_grid_no := -1 } with
        | Except.ok e => e
        | Except.error _ => default) ∧
    ∃ gl, [testGrid, testGrid2].getLast? = some gl ∧
      gl.fields ({ quietArgs with bg_grid_no := -1 } : VisArgs).background_field =
        some (match visSetup [testGrid, testGrid2] { quietArgs with bg_grid_no := -1 } with
          | Except.ok e => e
          | Except.error _ => default).bgDA ∧
      (match visSetup [testGrid, testGrid2] { quietArgs with bg_grid_no := -1 } with
        | Except.ok e => e
        | Except.error _ => default).grid_bg =
      (match visSetup [testGrid, testGrid2] { quietArgs with bg_grid_no := -1 } with
        | Except.ok e => e
        | Except.error _ => default).bgDA.values :=
  ⟨rfl, rfl, bg_grid_no_negative_one.1 [testGrid, testGrid2]
    { quietArgs with bg_grid_no := -1 } _ rfl rfl⟩

/-- C9: whenever v_vel_contours is set, the v contour of the horizontal
procedures is drawn with `levels=u_vel_contours`: in
`plot_horiz_xsection_streamlines` the value of v_vel_contours is never used
beyond enabling the branch (two calls differing only in that value are
identical), every contour call at the v site of either horizontal procedure
carries the u level list (automatic levels when it is absent), and the v
contour call is in fact issued when the branch is enabled. -/
theorem v_contours_use_u_levels :
    (∀ (Grids : List Grid) (a : VisArgs) (l1 l2 : List ℚ),
      plot_horiz_xsection_streamlines Grids { a with v_vel_contours := some l1 } =
      plot_horiz_xsection_streamlines Grids { a with v_vel_contours := some l2 }) ∧
    (∀ (Grids : List Grid) (a : VisArgs) (x y d : D2) (cm : M2) (o : Option (List RVal)),
      Event.contour CSite.hV x y d cm o ∈ (plot_horiz_xsection_streamlines Grids a).2.1 →
      o = levOfOpt a.u_vel_contours) ∧
    (∀ (ms : ModState) (Grids : List Grid) (a : VisArgs) (x y d : D2) (cm : M2)
      (o : Option (List RVal)),
      Event.contour CSite.mV x y d cm o ∈
        (plot_horiz_xsection_streamlines_map ms Grids a).2.2.1 →
      o = levOfOpt a.u_vel_contours) ∧
    (∀ (Grids : List Grid) (a : VisArgs) (env : Env) (l : List ℚ),
      visSetup Grids a = Except.ok env → a.v_vel_contours = some l →
      a.colorbar_flag = false → a.u_vel_contours = none →
      Event.contour CSite.hV (NpArr.sl0 env.grid_x a.level) (NpArr.sl0 env.grid_y a.level)
        (NpArr.sl0 env.v a.level) mfalse (levOfOpt a.u_vel_contours)
        ∈ (plot_horiz_xsection_streamlines Grids a).2.1) := by
  refine ⟨?_, ?_, ?_, ?_⟩
  · intro Grids a l1 l2
    rfl
  · intro Grids a x y d cm o hmem
    unfold plot_horiz_xsection_streamlines at hmem
    rcases hs : visSetup Grids a with e2 | env
    · simp only [hs] at hmem
      simp [errSeg] at hmem
    · simp only [hs] at hmem
      refine flatAfter_forall (P := fun ev => ∀ x y d cm o,
          ev = Event.contour CSite.hV x y d cm o → o = levOfOpt a.u_vel_contours)
        ?_ ?_ ?_ ?_ ?_ ?_ ?_ ?_ ?_ ?_ ?_ ?_ ?_ ?_ ?_ _ hmem x y d cm o rfl
      · intro x y d cm o h
        simp at h
      · intro x y d cm o h
        simp at h
      · intro s x y d cm o h
        simp at h
      · intro l hl x y d cm o h
        simp [horizCfg] at h
      · intro l hl x y d cm o h
        injection h with a1 a2 a3 a4 a5 a6
        rw [← a6]
        rfl
      · intro l hl x y d cm o h
        simp [horizCfg] at h
      · intro l hl x y d cm o h
        simp [horizCfg] at h
      · intro lo hi x y d cm o h
        simp at h
      · intro x y d cm o h
        simp at h
      · refine bcaSection_forall ?_
        intro g1 g2 q1 q2 h1 h2
        constructor
        · intro x y d cm o h
          simp at h
        · intro x y d cm o h
          simp at h
      · intro x y d cm o h
        simp at h
      · intro x y d cm o h
        simp at h
      · intro x y d cm o h
        simp at h
      · intro x y d cm o h
        simp at h
      · intro x y d cm o h
        simp at h
  · intro ms Grids a x y d cm o hmem
    unfold plot_horiz_xsection_streamlines_map at hmem
    by_cases hav : ms.cartopyAvailable = true
    · simp only [hav, if_true] at hmem
      rcases hs : mapSetup Grids a with e2 | env
      · simp only [hs] at hmem
        simp [errSeg] at hmem
      · simp only [hs] at hmem
        refine mapAfter_forall (P := fun ev => ∀ x y d cm o,
            ev = Event.contour CSite.mV x y d cm o → o = levOfOpt a.u_vel_contours)
          ?_ ?_ ?_ ?_ ?_ ?_ ?_ ?_ ?_ ?_ ?_ ?_ ?_ ?_ ?_ ?_ ?_ ?_ ?_ ?_ ?_ ?_ ?_ ?_ _ hmem
          x y d cm o rfl
        · intro x y d cm o h
          simp at h
        · intro x y d cm o h
          simp at h
        · intro s x y d cm o h
          simp at h
        · intro q qs hl x y d cm o h
          simp at h
        · intro q qs hl x y d cm o h
          simp at h
        · intro q qs hl x y d cm o h
          injection h with a1 a2 a3 a4 a5 a6
          rw [← a6]
        · intro q qs hl x y d cm o h
          simp at h
        · intro q qs hl x y d cm o h
          simp at h
        · intro q qs hl x y d cm o h
          simp at h
        · intro l hl x y d cm o h
          simp at h
        · intro l hl x y d cm o h
          simp at h
        · intro site m x y d cm o h
          simp at h
        · intro m x y d cm o h
          simp at h
        · intro lo hi x y d cm o h
          simp at h
        · intro x y d cm o h
          simp at h
        · refine ?_
          intro g1 g2 q1 q2 h1 h2
          constructor
          · intro x y d cm o h
            simp at h
          · intro x y d cm o h
            simp at h
        · intro s x y d cm o h
          simp at h
        · intro s x y d cm o h
          simp at h
        · intro s x y d cm o h
          simp at h
        · intro x y d cm o h
          simp at h
        · intro x y d cm o h
          simp at h
        · intro x y d cm o h
          simp at h
        · intro x y d cm o h
          simp at h
        · intro x y d cm o h
          simp at h
    · simp only [Bool.not_eq_true] at hav
      simp [hav, errSeg] at hmem
  · intro Grids a env l hs hv hcbf hu
    unfold plot_horiz_xsection_streamlines
    simp only [hs]
    unfold flatAfter
    refine seq_mem_right rfl (seq_mem_right rfl (seq_mem_right ?_ (seq_mem_right ?_ ?_)))
    · unfold bgColorbarSeg
      simp [hcbf, okSeg]
    · simp only [hu]
      rfl
    · refine seq_mem_left _ ?_
      simp only [hv]
      unfold plainContourBranch okSeg
      exact List.mem_append_left _ (List.mem_cons_self _ _)

/-- Test arguments enabling only the v contour overlay. -/
def argsV : VisArgs := { quietArgs with v_vel_contours := some [5] }

/-- The environment the non-map prelude computes for the v-contour run. -/
def envV : Env :=
  match visSetup [testGrid] argsV with
  | Except.ok e => e
  | Except.error _ => default

/-- C9 witness: on the one-cell grid with only v contours enabled, the v
contour call is issued, with the (absent) u levels. -/
theorem v_contours_use_u_levels_witness :
    visSetup [testGrid] argsV = Except.ok envV ∧
    argsV.v_vel_contours = some [5] ∧ argsV.colorbar_flag = false ∧
    argsV.u_vel_contours = none ∧
    Event.contour CSite.hV (NpArr.sl0 envV.grid_x argsV.level)
      (NpArr.sl0 envV.grid_y argsV.level) (NpArr.sl0 envV.v argsV.level) mfalse
      (levOfOpt argsV.u_vel_contours)
      ∈ (plot_horiz_xsection_streamlines [testGrid] argsV).2.1 :=
  ⟨rfl, rfl, rfl, rfl,
    v_contours_use_u_levels.2.2.2 [testGrid] argsV envV [5] rfl rfl rfl rfl⟩

/-- Coordinate arrays a non-map draw call may receive: a slice of one of the
three kilometre coordinate fields (each the raw field divided by 1e3 in the
prelude). -/
def CoordOkF (env : Env) (sl : NpArr → D2) (d : D2) : Prop :=
  d = sl env.grid_x ∨ d = sl env.grid_y ∨ d = sl env.grid_h

/-- Data arrays a non-map draw call may receive: the background slice, a
NaN-filled wind component slice, the horizontal wind magnitude of the u and
v slices, or the beam-crossing-angle field of a pair of the grids (computed
by the retrieval layer, passed through unchanged). -/
def DatOkF (Grids : List Grid) (env : Env) (sl : NpArr → D2) (d : D2) : Prop :=
  d = sl env.grid_bg ∨ d = sl env.u ∨ d = sl env.v ∨ d = sl env.w ∨
  d = magSlice (sl env.u) (sl env.v) ∨
  ∃ g1 g2, g1 ∈ Grids ∧ g2 ∈ Grids ∧ d = retrieval.get_bca g1 g2

/-- Contour level lists a call may receive: automatic levels, one of the
four user level lists (as exact floats), or the radian conversions of the
two bca attributes. -/
def LevOk (a : VisArgs) (o : Option (List RVal)) : Prop :=
  o = none ∨
  (∃ l, (a.u_vel_contours = some l ∨ a.v_vel_contours = some l ∨
    a.w_vel_contours = some l ∨ a.wind_vel_contours = some l) ∧
    o = some (l.map RVal.fin)) ∨
  ∃ q1 q2, o = some [RVal.rad q1, RVal.rad q2]

/-- Axis limits a non-map procedure may set: the extremes of one of the three
kilometre coordinate fields (a selection, not a transformation). -/
def LimOkF (env : Env) (lo hi : RVal) : Prop :=
  ∃ n, (n = env.grid_x ∨ n = env.grid_y ∨ n = env.grid_h) ∧
    lo = NpArr.aminV n ∧ hi = NpArr.amaxV n

/-- Draw-call discipline of a non-map body: every array handed to a mesh,
streamline or contour call is one of the allowed forms, every mask is the
own invalidity mask of the background (for the mesh) or empty (for the
contours, whose data was already NaN-filled), every explicit level list is a
user list or the radian pair, and the axis limits are coordinate extremes. -/
def DrawOkF (Grids : List Grid) (a : VisArgs) (env : Env) (sl : NpArr → D2)
    (bgm : M2) : Event → Prop
  | Event.pcolormesh _ x y c cm _ _ =>
    CoordOkF env sl x ∧ CoordOkF env sl y ∧ DatOkF Grids env sl c ∧ cm = bgm
  | Event.streamplot _ x y su sv =>
    CoordOkF env sl x ∧ CoordOkF env sl y ∧ DatOkF Grids env sl su ∧ DatOkF Grids env sl sv
  | Event.contour _ x y c cm o =>
    CoordOkF env sl x ∧ CoordOkF env sl y ∧ DatOkF Grids env sl c ∧ cm = mfalse ∧ LevOk a o
  | Event.contourf _ x y c cm o =>
    CoordOkF env sl x ∧ CoordOkF env sl y ∧ DatOkF Grids env sl c ∧ cm = mfalse ∧ LevOk a o
  | Event.setXlim lo hi => LimOkF env lo hi
  | Event.setYlim lo hi => LimOkF env lo hi
  | _ => True

/-- Coordinate arrays a map draw call may receive: the level slice of the
latitude/longitude data, or a kilometre coordinate slice (the wind-magnitude
contour of the map variant draws on x/y kilometres). -/
def CoordOkM (env : MEnv) (lvl : Nat) (d : D2) : Prop :=
  d = env.lon ∨ d = env.lat ∨ d = NpArr.sl0 env.grid_x lvl ∨ d = NpArr.sl0 env.grid_y lvl

/-- Data arrays a map draw call may receive. -/
def DatOkM (Grids : List Grid) (env : MEnv) (lvl : Nat) (d : D2) : Prop :=
  d = NpArr.sl0 env.grid_bg lvl ∨ d = NpArr.sl0 env.u lvl ∨ d = NpArr.sl0 env.v lvl ∨
  d = NpArr.sl0 env.w lvl ∨
  d = magSlice (NpArr.sl0 env.u lvl) (NpArr.sl0 env.v lvl) ∨
  ∃ g1 g2, g1 ∈ Grids ∧ g2 ∈ Grids ∧ d = retrieval.get_bca g1 g2

/-- Masks a map contour call may attach to its data array `c`: the empty mask
(the wind-magnitude and lobe contours), or the threshold mask hiding the cells
of `c` whose value lies below the minimum of the user level list of the very
component being contoured (the `masked_where` of the u/v/w blocks, applied to
already valid, NaN-filled values). -/
def MaskOkM (a : VisArgs) (env : MEnv) (lvl : Nat) (c : D2) (cm : M2) : Prop :=
  cm = mfalse ∨
  ∃ q qs,
    ((a.u_vel_contours = some (q :: qs) ∧ c = NpArr.sl0 env.u lvl) ∨
     (a.v_vel_contours = some (q :: qs) ∧ c = NpArr.sl0 env.v lvl) ∨
     (a.w_vel_contours = some (q :: qs) ∧ c = NpArr.sl0 env.w lvl)) ∧
    cm = thMask c q qs

/-- Draw-call discipline of the map body: arrays and level lists as in the
non-map case, the mesh mask the own invalidity mask of the background, every
contour mask empty or the threshold mask of its own data, the extent the
coordinate extremes, and the ticks exactly the rounded linspace between those
extremes. -/
def DrawOkM (Grids : List Grid) (a : VisArgs) (env : MEnv) : Event → Prop
  | Event.pcolormesh _ x y c cm _ _ =>
    CoordOkM env a.level x ∧ CoordOkM env a.level y ∧ DatOkM Grids env a.level c ∧
      cm = NpArr.sm0 env.grid_bg a.level
  | Event.streamplot _ x y su sv =>
    CoordOkM env a.level x ∧ CoordOkM env a.level y ∧
      DatOkM Grids env a.level su ∧ DatOkM Grids env a.level sv
  | Event.contour _ x y c cm o =>
    CoordOkM env a.level x ∧ CoordOkM env a.level y ∧ DatOkM Grids env a.level c ∧
      MaskOkM a env a.level c cm ∧ LevOk a o
  | Event.contourf _ x y c cm o =>
    CoordOkM env a.level x ∧ CoordOkM env a.level y ∧ DatOkM Grids env a.level c ∧
      MaskOkM a env a.level c cm ∧ LevOk a o
  | Event.setExtent x0 x1 y0 y1 =>
    x0 = amin2 env.g0.ny env.g0.nx env.lon ∧ x1 = amax2 env.g0.ny env.g0.nx env.lon ∧
      y0 = amin2 env.g0.ny env.g0.nx env.lat ∧ y1 = amax2 env.g0.ny env.g0.nx env.lat
  | Event.setXticks t => t = ticksOf env.g0.ny env.g0.nx env.lon
  | Event.setYticks t => t = ticksOf env.g0.ny env.g0.nx env.lat
  | _ => True

/-- The u level list (or automatic levels) is allowed. -/
theorem levOk_u {a : VisArgs} : LevOk a (levOfOpt a.u_vel_contours) := by
  rcases h : a.u_vel_contours with _ | l
  · exact Or.inl rfl
  · exact Or.inr (Or.inl ⟨l, Or.inl h, rfl⟩)

/-- The v level list (or automatic levels) is allowed. -/
theorem levOk_v {a : VisArgs} : LevOk a (levOfOpt a.v_vel_contours) := by
  rcases h : a.v_vel_contours with _ | l
  · exact Or.inl rfl
  · exact Or.inr (Or.inl ⟨l, Or.inr (Or.inl h), rfl⟩)

/-- The w level list (or automatic levels) is allowed. -/
theorem levOk_w {a : VisArgs} : LevOk a (levOfOpt a.w_vel_contours) := by
  rcases h : a.w_vel_contours with _ | l
  · exact Or.inl rfl
  · exact Or.inr (Or.inl ⟨l, Or.inr (Or.inr (Or.inl h)), rfl⟩)

/-- The radian level pair is allowed. -/
theorem levOk_rad {a : VisArgs} {q1 q2 : ℚ} :
    LevOk a (some [RVal.rad q1, RVal.rad q2]) := Or.inr (Or.inr ⟨q1, q2, rfl⟩)

/-- C2 (amended): before delegating to the plotting library, the arithmetic
the four procedures apply to the grid data is the horizontal magnitude
`sqrt(u^2+v^2)`, unit conversion (coordinates divided by 1e3, the
min_bca/max_bca attributes converted from degrees to radians),
masking/replacement of invalid values, and — in the map variant only — two
further display computations the original claim omitted: each u/v/w contour
block masks out the valid wind values of its slice lying below the minimum of
the corresponding requested level list, and the axis ticks are the
one-decimal rounding of a linspace between the coordinate extremes.  The
prelude equations exhibit the division and NaN-filling, and every array, mask,
level list, axis limit and tick list handed to a library call is one of
exactly those forms. -/
theorem display_math_amended :
    (∀ (Grids : List Grid) (a : VisArgs) (env : Env),
      visSetup Grids a = Except.ok env →
      ((∃ xDA, env.g0.fields "point_x" = some xDA ∧ env.grid_x = xDA.values.div1000) ∧
       (∃ yDA, env.g0.fields "point_y" = some yDA ∧ env.grid_y = yDA.values.div1000) ∧
       (∃ hDA, env.g0.fields "point_altitude" = some hDA ∧
         env.grid_h = hDA.values.div1000) ∧
       env.grid_bg = env.bgDA.values ∧
       env.u = fillIfMasked env.uDA.values ∧ env.v = fillIfMasked env.vDA.values ∧
       env.w = fillIfMasked env.wDA.values) ∧
      (∀ e ∈ (plot_horiz_xsection_streamlines Grids a).2.1,
        DrawOkF Grids a env (fun n => NpArr.sl0 n a.level)
          (NpArr.sm0 env.grid_bg a.level) e) ∧
      (∀ e ∈ (plot_xz_xsection_streamlines Grids a).2.1,
        DrawOkF Grids a env (fun n => NpArr.sl1 n a.level)
          (NpArr.sm1 env.grid_bg a.level) e) ∧
      (∀ e ∈ (plot_yz_xsection_streamlines Grids a).2.1,
        DrawOkF Grids a env (fun n => NpArr.sl2 n a.level)
          (NpArr.sm2 env.grid_bg a.level) e)) ∧
    (∀ (ms : ModState) (Grids : List Grid) (a : VisArgs) (env : MEnv),
      mapSetup Grids a = Except.ok env →
      (env.u = fillIfMasked env.uDA.values ∧ env.v = fillIfMasked env.vDA.values ∧
       env.w = fillIfMasked env.wDA.values ∧
       (∃ xDA, env.g0.fields "point_x" = some xDA ∧ env.grid_x = xDA.values.div1000) ∧
       (∃ yDA, env.g0.fields "point_y" = some yDA ∧ env.grid_y = yDA.values.div1000)) ∧
      ∀ e ∈ (plot_horiz_xsection_streamlines_map ms Grids a).2.2.1,
        DrawOkM Grids a env e) := by
  constructor
  · intro Grids a env hs
    obtain ⟨_, _, hgb, _, _, _, hh, hx, hy, _, _, _, hu, hv, hw⟩ := visSetup_ok hs
    refine ⟨⟨hx, hy, hh, hgb, hu, hv, hw⟩, ?_, ?_, ?_⟩
    · unfold plot_horiz_xsection_streamlines
      simp only [hs]
      refine flatAfter_forall ?_ ?_ ?_ ?_ ?_ ?_ ?_ ?_ ?_ ?_ ?_ ?_ ?_ ?_ ?_
      · exact ⟨Or.inl rfl, Or.inr (Or.inl rfl), Or.inl rfl, rfl⟩
      · exact ⟨Or.inl rfl, Or.inr (Or.inl rfl), Or.inr (Or.inl rfl),
          Or.inr (Or.inr (Or.inl rfl))⟩
      · intro s
        trivial
      · intro l hl
        exact ⟨Or.inl rfl, Or.inr (Or.inl rfl), Or.inr (Or.inl rfl), rfl,
          Or.inr (Or.inl ⟨l, Or.inl hl, rfl⟩)⟩
      · intro l hl
        exact ⟨Or.inl rfl, Or.inr (Or.inl rfl), Or.inr (Or.inr (Or.inl rfl)), rfl, levOk_u⟩
      · intro l hl
        exact ⟨Or.inl rfl, Or.inr (Or.inl rfl), Or.inr (Or.inr (Or.inr (Or.inl rfl))), rfl,
          Or.inr (Or.inl ⟨l, Or.inr (Or.inr (Or.inl hl)), rfl⟩)⟩
      · intro l hl
        exact ⟨Or.inl rfl, Or.inr (Or.inl rfl),
          Or.inr (Or.inr (Or.inr (Or.inr (Or.inl rfl)))), rfl,
          Or.inr (Or.inl ⟨l, Or.inr (Or.inr (Or.inr hl)), rfl⟩)⟩
      · intro lo hi
        trivial
      · trivial
      · refine bcaSection_forall ?_
        intro g1 g2 q1 q2 h1 h2
        exact ⟨⟨Or.inl rfl, Or.inr (Or.inl rfl),
            Or.inr (Or.inr (Or.inr (Or.inr (Or.inr ⟨g1, g2, h1, h2, rfl⟩)))), rfl,
            levOk_rad⟩,
          ⟨Or.inl rfl, Or.inr (Or.inl rfl),
            Or.inr (Or.inr (Or.inr (Or.inr (Or.inr ⟨g1, g2, h1, h2, rfl⟩)))), rfl,
            levOk_rad⟩⟩
      · trivial
      · trivial
      · trivial
      · exact ⟨env.grid_x, Or.inl rfl, rfl, rfl⟩
      · exact ⟨env.grid_y, Or.inr (Or.inl rfl), rfl, rfl⟩
    · unfold plot_xz_xsection_streamlines
      simp only [hs]
      refine flatAfter_forall ?_ ?_ ?_ ?_ ?_ ?_ ?_ ?_ ?_ ?_ ?_ ?_ ?_ ?_ ?_
      · exact ⟨Or.inl rfl, Or.inr (Or.inr rfl), Or.inl rfl, rfl⟩
      · exact ⟨Or.inl rfl, Or.inr (Or.inr rfl), Or.inr (Or.inl rfl),
          Or.inr (Or.inr (Or.inr (Or.inl rfl)))⟩
      · intro s
        trivial
      · intro l hl
        exact ⟨Or.inl rfl, Or.inr (Or.inr rfl), Or.inr (Or.inl rfl), rfl,
          Or.inr (Or.inl ⟨l, Or.inl hl, rfl⟩)⟩
      · intro l hl
        exact ⟨Or.inl rfl, Or.inr (Or.inr rfl), Or.inr (Or.inr (Or.inr (Or.inl rfl))), rfl,
          levOk_v⟩
      · intro l hl
        exact ⟨Or.inl rfl, Or.inr (Or.inr rfl), Or.inr (Or.inr (Or.inr (Or.inl rfl))), rfl,
          Or.inr (Or.inl ⟨l, Or.inr (Or.inr (Or.inl hl)), rfl⟩)⟩
      · intro l hl
        exact ⟨Or.inl rfl, Or.inr (Or.inr rfl),
          Or.inr (Or.inr (Or.inr (Or.inr (Or.inl rfl)))), rfl,
          Or.inr (Or.inl ⟨l, Or.inr (Or.inr (Or.inr hl)), rfl⟩)⟩
      · intro lo hi
        trivial
      · trivial
      · intro e he
        simp [xzCfg, okSeg] at he
      · trivial
      · trivial
      · trivial
      · exact ⟨env.grid_x, Or.inl rfl, rfl, rfl⟩
      · exact ⟨env.grid_h, Or.inr (Or.inr rfl), rfl, rfl⟩
    · unfold plot_yz_xsection_streamlines
      simp only [hs]
      refine flatAfter_forall ?_ ?_ ?_ ?_ ?_ ?_ ?_ ?_ ?_ ?_ ?_ ?_ ?_ ?_ ?_
      · exact ⟨Or.inr (Or.inl rfl), Or.inr (Or.inr rfl), Or.inl rfl, rfl⟩
      · exact ⟨Or.inr (Or.inl rfl), Or.inr (Or.inr rfl), Or.inr (Or.inr (Or.inl rfl)),
          Or.inr (Or.inr (Or.inr (Or.inl rfl)))⟩
      · intro s
        trivial
      · intro l hl
        exact ⟨Or.inr (Or.inl rfl), Or.inr (Or.inr rfl), Or.inr (Or.inl rfl), rfl,
          Or.inr (Or.inl ⟨l, Or.inl hl, rfl⟩)⟩
      · intro l hl
        exact ⟨Or.inr (Or.inl rfl), Or.inr (Or.inr rfl), Or.inr (Or.inr (Or.inl rfl)), rfl,
          levOk_w⟩
      · intro l hl
        exact ⟨Or.inr (Or.inl rfl), Or.inr (Or.inr rfl),
          Or.inr (Or.inr (Or.inr (Or.inl rfl))), rfl,
          Or.inr (Or.inl ⟨l, Or.inr (Or.inr (Or.inl hl)), rfl⟩)⟩
      · intro l hl
        exact ⟨Or.inr (Or.inl rfl), Or.inr (Or.inr rfl),
          Or.inr (Or.inr (Or.inr (Or.inr (Or.inl rfl)))), rfl,
          Or.inr (Or.inl ⟨l, Or.inr (Or.inr (Or.inr hl)), rfl⟩)⟩
      · intro lo hi
        trivial
      · trivial
      · intro e he
        simp [yzCfg, okSeg] at he
      · trivial
      · trivial
      · trivial
      · exact ⟨env.grid_y, Or.inr (Or.inl rfl), rfl, rfl⟩
      · exact ⟨env.grid_h, Or.inr (Or.inr rfl), rfl, rfl⟩
  · intro ms Grids a env hs
    obtain ⟨_, _, _, _, _, hx, hy, _, _, _, _, _, hu, hv, hw⟩ := mapSetup_ok hs
    refine ⟨⟨hu, hv, hw, hx, hy⟩, ?_⟩
    unfold plot_horiz_xsection_streamlines_map
    by_cases hav : ms.cartopyAvailable = true
    · simp only [hav, if_true, hs]
      refine mapAfter_forall ?_ ?_ ?_ ?_ ?_ ?_ ?_ ?_ ?_ ?_ ?_ ?_ ?_ ?_ ?_ ?_ ?_ ?_ ?_
        ?_ ?_ ?_ ?_ ?_
      · exact ⟨Or.inl rfl, Or.inr (Or.inl rfl), Or.inl rfl, rfl⟩
      · exact ⟨Or.inl rfl, Or.inr (Or.inl rfl), Or.inr (Or.inl rfl),
          Or.inr (Or.inr (Or.inl rfl))⟩
      · intro s
        trivial
      · intro q qs hl
        exact ⟨Or.inl rfl, Or.inr (Or.inl rfl), Or.inr (Or.inl rfl),
          Or.inr ⟨q, qs, Or.inl ⟨hl, rfl⟩, rfl⟩,
          Or.inr (Or.inl ⟨q :: qs, Or.inl hl, rfl⟩)⟩
      · intro q qs hl
        exact ⟨Or.inl rfl, Or.inr (Or.inl rfl), Or.inr (Or.inl rfl),
          Or.inr ⟨q, qs, Or.inl ⟨hl, rfl⟩, rfl⟩,
          Or.inr (Or.inl ⟨q :: qs, Or.inl hl, rfl⟩)⟩
      · intro q qs hl
        exact ⟨Or.inl rfl, Or.inr (Or.inl rfl), Or.inr (Or.inr (Or.inl rfl)),
          Or.inr ⟨q, qs, Or.inr (Or.inl ⟨hl, rfl⟩), rfl⟩, levOk_u⟩
      · intro q qs hl
        exact ⟨Or.inl rfl, Or.inr (Or.inl rfl), Or.inr (Or.inr (Or.inl rfl)),
          Or.inr ⟨q, qs, Or.inr (Or.inl ⟨hl, rfl⟩), rfl⟩, levOk_u⟩
      · intro q qs hl
        exact ⟨Or.inl rfl, Or.inr (Or.inl rfl), Or.inr (Or.inr (Or.inr (Or.inl rfl))),
          Or.inr ⟨q, qs, Or.inr (Or.inr ⟨hl, rfl⟩), rfl⟩,
          Or.inr (Or.inl ⟨q :: qs, Or.inr (Or.inr (Or.inl hl)), rfl⟩)⟩
      · intro q qs hl
        exact ⟨Or.inl rfl, Or.inr (Or.inl rfl), Or.inr (Or.inr (Or.inr (Or.inl rfl))),
          Or.inr ⟨q, qs, Or.inr (Or.inr ⟨hl, rfl⟩), rfl⟩,
          Or.inr (Or.inl ⟨q :: qs, Or.inr (Or.inr (Or.inl hl)), rfl⟩)⟩
      · intro l hl
        exact ⟨Or.inr (Or.inr (Or.inl rfl)), Or.inr (Or.inr (Or.inr rfl)),
          Or.inr (Or.inr (Or.inr (Or.inr (Or.inl rfl)))), Or.inl rfl,
          Or.inr (Or.inl ⟨l, Or.inr (Or.inr (Or.inr hl)), rfl⟩)⟩
      · intro l hl
        exact ⟨Or.inr (Or.inr (Or.inl rfl)), Or.inr (Or.inr (Or.inr rfl)),
          Or.inr (Or.inr (Or.inr (Or.inr (Or.inl rfl)))), Or.inl rfl,
          Or.inr (Or.inl ⟨l, Or.inr (Or.inr (Or.inr hl)), rfl⟩)⟩
      · intro site m
        trivial
      · intro m
        trivial
      · intro lo hi
        trivial
      · trivial
      · intro g1 g2 q1 q2 h1 h2
        exact ⟨⟨Or.inl rfl, Or.inr (Or.inl rfl),
            Or.inr (Or.inr (Or.inr (Or.inr (Or.inr ⟨g1, g2, h1, h2, rfl⟩)))), Or.inl rfl,
            levOk_rad⟩,
          ⟨Or.inl rfl, Or.inr (Or.inl rfl),
            Or.inr (Or.inr (Or.inr (Or.inr (Or.inr ⟨g1, g2, h1, h2, rfl⟩)))), Or.inl rfl,
            levOk_rad⟩⟩
      · intro s
        trivial
      · intro s
        trivial
      · intro s
        trivial
      · trivial
      · trivial
      · exact ⟨rfl, rfl, rfl, rfl⟩
      · exact rfl
      · exact rfl
    · simp only [Bool.not_eq_true] at hav
      simp only [hav]
      intro e he
      simp [errSeg] at he

/-- C2 witness: the amended draw-call discipline applies at the concrete
one-cell grid, whose preludes succeed. -/
theorem display_math_amended_witness :
    visSetup [testGrid] quietArgs = Except.ok envT ∧
    mapSetup [testGrid] quietArgs = Except.ok menvT ∧
    (envT.u = fillIfMasked envT.uDA.values ∧ envT.v = fillIfMasked envT.vDA.values ∧
      envT.w = fillIfMasked envT.wDA.values) :=
  ⟨rfl, rfl, (display_math_amended.1 [testGrid] quietArgs envT rfl).1.2.2.2.2⟩

/-- A 1x1x2 plain (unmasked) test array holding `q0` in its first cell and
`q1` in its second. -/
def cxArr (q0 q1 : ℚ) : NpArr :=
  { nz := 1, ny := 1, nx := 2,
    dat := fun _ _ k => if k = 0 then RVal.fin q0 else RVal.fin q1,
    mask := fun _ _ _ => false, isMa := false }

/-- The u field of the counterexample grid: the valid values 1 and 20. -/
def cxWindDA : DataArray := { values := cxArr 1 20, attrs := testAttrs }

/-- The remaining fields of the counterexample grid. -/
def cxPlainDA : DataArray := { values := cxArr 1 1, attrs := testAttrs }

/-- Field dictionary of the counterexample grid. -/
def cxFields : String → Option DataArray := fun s =>
  if s = "reflectivity" then some cxPlainDA
  else if s = "u" then some cxWindDA
  else if s = "v" then some cxPlainDA
  else if s = "w" then some cxPlainDA
  else if s = "point_altitude" then some cxPlainDA
  else if s = "point_x" then some cxPlainDA
  else if s = "point_y" then some cxPlainDA
  else none

/-- A 1x1x2 unmasked test grid whose u wind holds the valid values 1 and
20. -/
def cxGrid : Grid :=
  { gid := 0, nz := 1, ny := 1, nx := 2, fields := cxFields,
    pointLatitude := fun _ _ _ => RVal.fin 10, pointLongitude := fun _ _ _ => RVal.fin 20 }

/-- Test arguments requesting only a u contour overlay at the single level
10. -/
def argsUonly : VisArgs := { quietArgs with u_vel_contours := some [10] }

/-- The environment the map prelude computes for the counterexample run. -/
def cxEnv : MEnv :=
  match mapSetup [cxGrid] argsUonly with
  | Except.ok e => e
  | Except.error _ => default

/-- C2 counterexample: the original claim, that every computation applied to
the grid data is a magnitude, a unit conversion or a masking of invalid
values, fails at a concrete traced input.  On a plain (unmasked) grid whose u
wind holds the valid values 1 and 20, the map variant with
`u_vel_contours=[10]` issues a contourf call whose mask argument is the
threshold mask of the slice itself: it hides cell (0,0), although the wind
value there is the valid, finite, unmasked 1 — masking of a valid value,
outside all three permitted categories (the threshold 10 comes from the
requested levels, not from any invalidity of the data). -/
theorem threshold_masks_valid_wind :
    mapSetup [cxGrid] argsUonly = Except.ok cxEnv ∧
    cxEnv.uDA.values.isMa = false ∧
    NpArr.sl0 cxEnv.u argsUonly.level 0 0 = RVal.fin 1 ∧
    thMask (NpArr.sl0 cxEnv.u argsUonly.level) 10 [] 0 0 = true ∧
    Event.contourf CSite.mU cxEnv.lon cxEnv.lat (NpArr.sl0 cxEnv.u argsUonly.level)
      (thMask (NpArr.sl0 cxEnv.u argsUonly.level) 10 []) (levOfOpt (some [10]))
      ∈ (plot_horiz_xsection_streamlines_map msOk [cxGrid] argsUonly).2.2.1 := by
  refine ⟨rfl, rfl, rfl, by decide, ?_⟩
  have hTr : (mapVelBranch CSite.mU true cxEnv.lon cxEnv.lat
      (NpArr.sl0 cxEnv.u argsUonly.level) mfalse cxEnv.g0.ny cxEnv.g0.nx [10]
      (some [10]) argsUonly.colorbar_contour_flag "U [m/s]" blankWarnA).1
      = [Event.contourf CSite.mU cxEnv.lon cxEnv.lat (NpArr.sl0 cxEnv.u argsUonly.level)
          (thMask (NpArr.sl0 cxEnv.u argsUonly.level) 10 []) (levOfOpt (some [10])),
         Event.setClim (RVal.fin (qMin 10 [])) (RVal.fin (qMax 10 [])),
         Event.clabel] := rfl
  show Event.contourf CSite.mU cxEnv.lon cxEnv.lat (NpArr.sl0 cxEnv.u argsUonly.level)
      (thMask (NpArr.sl0 cxEnv.u argsUonly.level) 10 []) (levOfOpt (some [10]))
    ∈ (mapAfter [cxGrid] argsUonly cxEnv).1
  unfold mapAfter
  refine seq_mem_right rfl (seq_mem_right rfl (seq_mem_right rfl (seq_mem_left _ ?_)))
  show Event.contourf CSite.mU cxEnv.lon cxEnv.lat (NpArr.sl0 cxEnv.u argsUonly.level)
      (thMask (NpArr.sl0 cxEnv.u argsUonly.level) 10 []) (levOfOpt (some [10]))
    ∈ (mapVelBranch CSite.mU true cxEnv.lon cxEnv.lat
        (NpArr.sl0 cxEnv.u argsUonly.level) mfalse cxEnv.g0.ny cxEnv.g0.nx [10]
        (some [10]) argsUonly.colorbar_contour_flag "U [m/s]" blankWarnA).1
  rw [hTr]
  exact List.mem_cons_self _ _
